import Mathlib

/-!
# EFR32 flash driver (`src/flash/nor/efr32.c`): shallow embedding and verified properties

The driver talks to a debug target through collaborator primitives
(`target_read_u32`, `target_write_u32`, working-area allocation, the
asynchronous flash algorithm runner).  The embedding threads an explicit
`World`: the collaborator's own state, the trace of every collaborator call the
driver made, and the working areas currently leased.  Machine integers are
`Nat`/`Int` with explicit reduction modulo `2^32` where the C code can wrap.
-/

namespace Efr32

/-! ## Constants -/

/-- Modelled from the spec: the error codes of `helper/log.h`, `target/target.h` and
`flash/common.h` are declared outside `src/`; the spec (section 7) names them as distinct
failures (NotHalted, AlignmentError, ResourceUnavailable, ...).  `ERROR_OK` is success. -/
def ERROR_OK : Int := 0

/-- Modelled from the spec: generic failure code (`helper/log.h`, not under `src/`). -/
def ERROR_FAIL : Int := -4

/-- Modelled from the spec: NotHalted (`target/target.h`, not under `src/`). -/
def ERROR_TARGET_NOT_HALTED : Int := -304

/-- Modelled from the spec: ResourceUnavailable (`target/target.h`, not under `src/`). -/
def ERROR_TARGET_RESOURCE_NOT_AVAILABLE : Int := -308

/-- Modelled from the spec: the operation-failed outcome of the algorithm runner
(`flash/common.h`, not under `src/`). -/
def ERROR_FLASH_OPERATION_FAILED : Int := -902

/-- Modelled from the spec: AlignmentError (`flash/common.h`, not under `src/`). -/
def ERROR_FLASH_DST_BREAKS_ALIGNMENT : Int := -904

/-- Modelled from the spec: address of the CPU-ID register (`target/cortex_m.h`, not under
`src/`), read by the probe to classify the core variant. -/
def CPUID : Nat := 0xE000ED00

def EFR_FAMILY_ID_MIGHTY_GECKO : Nat := 28
def EFR_FAMILY_ID_BLUE_GECKO : Nat := 20

def EFR32_FLASH_ERASE_TMO : Int := 100
def EFR32_FLASH_WDATAREADY_TMO : Int := 100
def EFR32_FLASH_WRITE_TMO : Int := 100

/-- Size in bytes of the lock-bit page mirror. -/
def LOCKBITS_PAGE_SZ : Nat := 512

def EFR32_MSC_INFO_BASE : Nat := 0x0fe00000
def EFR32_MSC_LOCK_BITS : Nat := EFR32_MSC_INFO_BASE + 0x4000
def EFR32_MSC_DEV_INFO : Nat := EFR32_MSC_INFO_BASE + 0x8000

def EFR32_MSC_DI_PAGE_SIZE : Nat := EFR32_MSC_DEV_INFO + 0x1e7
def EFR32_MSC_DI_FLASH_SZ : Nat := EFR32_MSC_DEV_INFO + 0x1f8
def EFR32_MSC_DI_RAM_SZ : Nat := EFR32_MSC_DEV_INFO + 0x1fa
def EFR32_MSC_DI_PART_NUM : Nat := EFR32_MSC_DEV_INFO + 0x1fc
def EFR32_MSC_DI_PART_FAMILY : Nat := EFR32_MSC_DEV_INFO + 0x1fe
def EFR32_MSC_DI_PROD_REV : Nat := EFR32_MSC_DEV_INFO + 0x1ff

def EFR32_MSC_REGBASE : Nat := 0x400e0000
def EFR32_MSC_WRITECTRL : Nat := EFR32_MSC_REGBASE + 0x008
def EFR32_MSC_WRITECTRL_WREN_MASK : Nat := 0x1
def EFR32_MSC_WRITECMD : Nat := EFR32_MSC_REGBASE + 0x00c
def EFR32_MSC_WRITECMD_LADDRIM_MASK : Nat := 0x1
def EFR32_MSC_WRITECMD_ERASEPAGE_MASK : Nat := 0x2
def EFR32_MSC_WRITECMD_WRITEONCE_MASK : Nat := 0x8
def EFR32_MSC_ADDRB : Nat := EFR32_MSC_REGBASE + 0x010
def EFR32_MSC_WDATA : Nat := EFR32_MSC_REGBASE + 0x018
def EFR32_MSC_STATUS : Nat := EFR32_MSC_REGBASE + 0x01c
def EFR32_MSC_STATUS_BUSY_MASK : Nat := 0x1
def EFR32_MSC_STATUS_LOCKED_MASK : Nat := 0x2
def EFR32_MSC_STATUS_INVADDR_MASK : Nat := 0x4
def EFR32_MSC_STATUS_WDATAREADY_MASK : Nat := 0x8
def EFR32_MSC_STATUS_WORDTIMEOUT_MASK : Nat := 0x10
def EFR32_MSC_STATUS_ERASEABORTED_MASK : Nat := 0x20
def EFR32_MSC_LOCK : Nat := EFR32_MSC_REGBASE + 0x040
def EFR32_MSC_LOCK_LOCKKEY : Nat := 0x1b71

/-- Bitwise complement of a `uint32_t` (the C operator `~`). -/
def not32 (x : Nat) : Nat := 0xFFFFFFFF ^^^ (x % 2 ^ 32)

/-! ## Data model -/

/-- A leased region of target memory (`struct working_area`). -/
structure working_area where
  address : Nat
  size : Nat
  deriving DecidableEq, Repr

/-- One entry of the bank's sector table (`struct flash_sector`). -/
structure flash_sector where
  offset : Nat
  size : Nat
  is_erased : Int
  is_protected : Int
  deriving DecidableEq, Repr

/-- The bank: the fields of `struct flash_bank` the driver uses, together with its
`driver_priv` (`struct efr32x_flash_bank`: `probed` and the 128-word `lb_page`). -/
structure flash_bank where
  base : Nat
  size : Nat
  num_sectors : Int
  sectors : List flash_sector
  probed : Int
  lb_page : Fin 128 → Nat

/-- Device descriptor filled by the probe (`struct efr32_info`). -/
structure efr32_info where
  flash_sz_kib : Nat
  ram_sz_kib : Nat
  part_num : Nat
  part_family : Nat
  prod_rev : Nat
  page_size : Nat
  deriving DecidableEq, Repr

/-- Every call the driver makes to a collaborator, in program order. -/
inductive Event where
  | read_u8 (addr : Nat)
  | read_u16 (addr : Nat)
  | read_u32 (addr : Nat)
  | write_u32 (addr val : Nat)
  | alloc_working_area (size : Nat)
  | alloc_working_area_try (size : Nat)
  | free_working_area (area : working_area)
  | write_buffer (addr : Nat) (data : List Nat)
  | run_flash_async_algorithm (data : List Nat) (count : Nat) (regs : List Nat)
      (source : working_area) (code_address : Nat)
  | alive_sleep (ms : Nat)
  | keep_alive
  deriving DecidableEq, Repr

/-- The debug-target collaborator, over its own state `τ`.  Every primitive returns its
status code, the value it stores through its out-parameter, and the next state. -/
structure Target (τ : Type) where
  /-- The host-side field test `target->state == TARGET_HALTED`. -/
  halted : τ → Bool
  read_u8 : τ → Nat → Int × Nat × τ
  read_u16 : τ → Nat → Int × Nat × τ
  read_u32 : τ → Nat → Int × Nat × τ
  write_u32 : τ → Nat → Nat → Int × τ
  alloc_working_area : τ → Nat → Int × working_area × τ
  alloc_working_area_try : τ → Nat → Int × working_area × τ
  free_working_area : τ → working_area → τ
  write_buffer : τ → Nat → List Nat → Int × τ
  run_flash_async_algorithm :
    τ → (Nat → Nat) → Nat → List Nat → working_area → Nat → Int × List Nat × τ

/-- What the driver can observe and change outside its own bank structure. -/
structure World (τ : Type) where
  tgt : τ
  trace : List Event
  leased : List working_area

/-- The host platform: whether `malloc(size)` returns a block, and the value an `int`
left shift of `1` produces when the shift count is at least the width of `int`
(undefined in C, so left to the platform). -/
structure Host where
  malloc_ok : Nat → Bool
  shl_wide : Nat → Int

/-! ## Collaborator calls, recorded in the trace -/

def target_read_u8 {τ : Type} (T : Target τ) (w : World τ) (addr : Nat) : Int × Nat × World τ :=
  let r := T.read_u8 w.tgt addr
  (r.1, r.2.1 % 2 ^ 8, { w with tgt := r.2.2, trace := w.trace ++ [Event.read_u8 addr] })

def target_read_u16 {τ : Type} (T : Target τ) (w : World τ) (addr : Nat) : Int × Nat × World τ :=
  let r := T.read_u16 w.tgt addr
  (r.1, r.2.1 % 2 ^ 16, { w with tgt := r.2.2, trace := w.trace ++ [Event.read_u16 addr] })

def target_read_u32 {τ : Type} (T : Target τ) (w : World τ) (addr : Nat) : Int × Nat × World τ :=
  let r := T.read_u32 w.tgt addr
  (r.1, r.2.1 % 2 ^ 32, { w with tgt := r.2.2, trace := w.trace ++ [Event.read_u32 addr] })

def target_write_u32 {τ : Type} (T : Target τ) (w : World τ) (addr val : Nat) : Int × World τ :=
  let r := T.write_u32 w.tgt addr val
  (r.1, { w with tgt := r.2, trace := w.trace ++ [Event.write_u32 addr val] })

def target_alloc_working_area {τ : Type} (T : Target τ) (w : World τ) (size : Nat) :
    Int × working_area × World τ :=
  let r := T.alloc_working_area w.tgt size
  (r.1, r.2.1,
    { tgt := r.2.2, trace := w.trace ++ [Event.alloc_working_area size],
      leased := if r.1 = ERROR_OK then r.2.1 :: w.leased else w.leased })

def target_alloc_working_area_try {τ : Type} (T : Target τ) (w : World τ) (size : Nat) :
    Int × working_area × World τ :=
  let r := T.alloc_working_area_try w.tgt size
  (r.1, r.2.1,
    { tgt := r.2.2, trace := w.trace ++ [Event.alloc_working_area_try size],
      leased := if r.1 = ERROR_OK then r.2.1 :: w.leased else w.leased })

def target_free_working_area {τ : Type} (T : Target τ) (w : World τ) (area : working_area) :
    World τ :=
  { tgt := T.free_working_area w.tgt area,
    trace := w.trace ++ [Event.free_working_area area],
    leased := w.leased.erase area }

def target_write_buffer {τ : Type} (T : Target τ) (w : World τ) (addr : Nat) (data : List Nat) :
    Int × World τ :=
  let r := T.write_buffer w.tgt addr data
  (r.1, { w with tgt := r.2, trace := w.trace ++ [Event.write_buffer addr data] })

def alive_sleep {τ : Type} (w : World τ) (ms : Nat) : World τ :=
  { w with trace := w.trace ++ [Event.alive_sleep ms] }

def keep_alive {τ : Type} (w : World τ) : World τ :=
  { w with trace := w.trace ++ [Event.keep_alive] }

/-! ## Register helpers and the status poll -/

/-- Set or reset given bits in a register (`efr32x_set_reg_bits`). -/
def efr32x_set_reg_bits {τ : Type} (T : Target τ) (w : World τ) (reg bitmask : Nat) (set : Int) :
    Int × World τ :=
  let r := target_read_u32 T w reg
  if r.1 ≠ ERROR_OK then (r.1, r.2.2)
  else
    let reg_val := if set ≠ 0 then r.2.1 ||| bitmask else r.2.1 &&& not32 bitmask
    target_write_u32 T r.2.2 reg reg_val

def efr32x_set_wren {τ : Type} (T : Target τ) (w : World τ) (write_enable : Int) : Int × World τ :=
  efr32x_set_reg_bits T w EFR32_MSC_WRITECTRL EFR32_MSC_WRITECTRL_WREN_MASK write_enable

def efr32x_msc_lock {τ : Type} (T : Target τ) (w : World τ) (lock : Int) : Int × World τ :=
  target_write_u32 T w EFR32_MSC_LOCK (if lock ≠ 0 then 0 else EFR32_MSC_LOCK_LOCKKEY)

/-- The body of the `while (1)` loop of `efr32x_wait_status`; the argument `n` is the
non-negative part of the countdown `timeout` (the test `timeout-- <= 0` fires exactly when
it is zero). -/
def efr32x_wait_status_loop {τ : Type} (T : Target τ) (wait_mask : Nat) (wait_for_set : Int) :
    Nat → World τ → Int × World τ
  | n, w =>
    let r := target_read_u32 T w EFR32_MSC_STATUS
    if r.1 ≠ ERROR_OK then (r.1, r.2.2)
    else if r.2.1 &&& wait_mask = 0 ∧ wait_for_set = 0 then (r.1, r.2.2)
    else if r.2.1 &&& wait_mask ≠ 0 ∧ wait_for_set ≠ 0 then (r.1, r.2.2)
    else
      match n with
      | 0 => (ERROR_FAIL, r.2.2)
      | m + 1 => efr32x_wait_status_loop T wait_mask wait_for_set m (alive_sleep r.2.2 1)

def efr32x_wait_status {τ : Type} (T : Target τ) (w : World τ) (timeout : Int) (wait_mask : Nat)
    (wait_for_set : Int) : Int × World τ :=
  efr32x_wait_status_loop T wait_mask wait_for_set timeout.toNat w

/-! ## Page erase and single-word write -/

/-- Erase one page (`efr32x_erase_page`); does not set WREN itself. -/
def efr32x_erase_page {τ : Type} (T : Target τ) (w : World τ) (addr : Nat) : Int × World τ :=
  let r1 := target_write_u32 T w EFR32_MSC_ADDRB addr
  if r1.1 ≠ ERROR_OK then r1
  else
    let r2 := efr32x_set_reg_bits T r1.2 EFR32_MSC_WRITECMD EFR32_MSC_WRITECMD_LADDRIM_MASK 1
    if r2.1 ≠ ERROR_OK then r2
    else
      let r3 := target_read_u32 T r2.2 EFR32_MSC_STATUS
      if r3.1 ≠ ERROR_OK then (r3.1, r3.2.2)
      else if r3.2.1 &&& EFR32_MSC_STATUS_LOCKED_MASK ≠ 0 then (ERROR_FAIL, r3.2.2)
      else if r3.2.1 &&& EFR32_MSC_STATUS_INVADDR_MASK ≠ 0 then (ERROR_FAIL, r3.2.2)
      else
        let r4 := efr32x_set_reg_bits T r3.2.2 EFR32_MSC_WRITECMD
          EFR32_MSC_WRITECMD_ERASEPAGE_MASK 1
        if r4.1 ≠ ERROR_OK then r4
        else efr32x_wait_status T r4.2 EFR32_FLASH_ERASE_TMO EFR32_MSC_STATUS_BUSY_MASK 0

/-- Write one 32-bit word (`efr32x_write_word`); does not set WREN itself. -/
def efr32x_write_word {τ : Type} (T : Target τ) (w : World τ) (addr val : Nat) : Int × World τ :=
  let w0 := keep_alive w
  let r1 := target_write_u32 T w0 EFR32_MSC_ADDRB addr
  if r1.1 ≠ ERROR_OK then r1
  else
    let r2 := efr32x_set_reg_bits T r1.2 EFR32_MSC_WRITECMD EFR32_MSC_WRITECMD_LADDRIM_MASK 1
    if r2.1 ≠ ERROR_OK then r2
    else
      let r3 := target_read_u32 T r2.2 EFR32_MSC_STATUS
      if r3.1 ≠ ERROR_OK then (r3.1, r3.2.2)
      else if r3.2.1 &&& EFR32_MSC_STATUS_LOCKED_MASK ≠ 0 then (ERROR_FAIL, r3.2.2)
      else if r3.2.1 &&& EFR32_MSC_STATUS_INVADDR_MASK ≠ 0 then (ERROR_FAIL, r3.2.2)
      else
        let r4 := efr32x_wait_status T r3.2.2 EFR32_FLASH_WDATAREADY_TMO
          EFR32_MSC_STATUS_WDATAREADY_MASK 1
        if r4.1 ≠ ERROR_OK then r4
        else
          let r5 := target_write_u32 T r4.2 EFR32_MSC_WDATA val
          if r5.1 ≠ ERROR_OK then r5
          else
            let r6 := target_write_u32 T r5.2 EFR32_MSC_WRITECMD EFR32_MSC_WRITECMD_WRITEONCE_MASK
            if r6.1 ≠ ERROR_OK then r6
            else
              let r7 := efr32x_wait_status T r6.2 EFR32_FLASH_WRITE_TMO EFR32_MSC_STATUS_BUSY_MASK 0
              if r7.1 ≠ ERROR_OK then r7 else (ERROR_OK, r7.2)

/-! ## Block write -/

/-- The on-target flash loader image (`efr32x_flash_write_code`). -/
def efr32x_flash_write_code : List Nat :=
  [0x15, 0x4e, 0xc6, 0x63, 0x01, 0x26, 0x86, 0x60,
   0x16, 0x68, 0x00, 0x2e, 0x22, 0xd0, 0x55, 0x68, 0xb5, 0x42, 0xf9, 0xd0,
   0x04, 0x61, 0x01, 0x26, 0xc6, 0x60, 0xc6, 0x69, 0x06, 0x27, 0x3e, 0x42, 0x16, 0xd1,
   0xc6, 0x69, 0x08, 0x27, 0x3e, 0x42, 0xfb, 0xd0,
   0x2e, 0x68, 0x86, 0x61, 0x08, 0x26, 0xc6, 0x60,
   0x04, 0x35, 0x04, 0x34,
   0xc6, 0x69, 0x01, 0x27, 0x3e, 0x42, 0xfb, 0xd1,
   0x9d, 0x42, 0x01, 0xd3, 0x15, 0x46, 0x08, 0x35,
   0x55, 0x60, 0x01, 0x39, 0x00, 0x29, 0x02, 0xd0, 0xdb, 0xe7,
   0x00, 0x20, 0x50, 0x60,
   0x30, 0x46, 0x00, 0xbe,
   0x71, 0x1b, 0x00, 0x00]

/-- The `while (target_alloc_working_area_try(...) != ERROR_OK)` loop of
`efr32x_write_block`.  `some (some area, _)`: the ring buffer was leased;
`some (none, _)`: the halved size is no larger than 256 bytes and the loader area
`write_algorithm` has been released; `none`: the iteration budget `fuel` ran out.  The size
at least halves on every iteration, so a budget of `buffer_size` iterations always suffices
(`efr32x_write_block_source_total`). -/
def efr32x_write_block_source {τ : Type} (T : Target τ) (write_algorithm : working_area) :
    Nat → Nat → World τ → Option (Option working_area × World τ)
  | fuel, buffer_size, w =>
    let r := target_alloc_working_area_try T w buffer_size
    if r.1 = ERROR_OK then some (some r.2.1, r.2.2)
    else if (buffer_size / 2) &&& not32 3 ≤ 256 then
      some (none, target_free_working_area T r.2.2 write_algorithm)
    else
      match fuel with
      | 0 => none
      | f + 1 =>
        efr32x_write_block_source T write_algorithm f ((buffer_size / 2) &&& not32 3) r.2.2

/-- The destination address the block path hands to the loader in `r4`. -/
def efr32x_write_block_address (bank : flash_bank) (offset : Nat) : Nat :=
  (bank.base + offset) % 2 ^ 32

/-- Block write through the on-target loader (`efr32x_write_block`); `count` is in words.
The first `match` arm is the exhausted iteration budget of the allocation loop, which the
initial size 16384 never reaches. -/
def efr32x_write_block {τ : Type} (T : Target τ) (bank : flash_bank) (w : World τ)
    (buf : Nat → Nat) (offset count : Nat) : Int × World τ :=
  let address := efr32x_write_block_address bank offset
  let r1 := target_alloc_working_area T w efr32x_flash_write_code.length
  if r1.1 ≠ ERROR_OK then (ERROR_TARGET_RESOURCE_NOT_AVAILABLE, r1.2.2)
  else
    let write_algorithm := r1.2.1
    let r2 := target_write_buffer T r1.2.2 write_algorithm.address efr32x_flash_write_code
    if r2.1 ≠ ERROR_OK then r2
    else
      match efr32x_write_block_source T write_algorithm 16384 16384 r2.2 with
      | none => (ERROR_FAIL, r2.2)
      | some (none, w3) => (ERROR_TARGET_RESOURCE_NOT_AVAILABLE, w3)
      | some (some source, w3) =>
        let regs := [EFR32_MSC_REGBASE, count % 2 ^ 32, source.address % 2 ^ 32,
          (source.address + source.size) % 2 ^ 32, address]
        let r4 := T.run_flash_async_algorithm w3.tgt buf count regs source write_algorithm.address
        let w4 : World τ :=
          { w3 with
            tgt := r4.2.2,
            trace := w3.trace ++ [Event.run_flash_async_algorithm
              ((List.range (count * 4)).map buf) count regs source write_algorithm.address] }
        let w5 := target_free_working_area T w4 source
        let w6 := target_free_working_area T w5 write_algorithm
        (r4.1, w6)

/-! ## Write dispatcher -/

/-- The host-endian `memcpy(&value, buffer, sizeof(uint32_t))` on a little-endian host. -/
def buf_word (buffer : Nat → Nat) : Nat :=
  buffer 0 % 256 + (buffer 1 % 256) * 2 ^ 8 + (buffer 2 % 256) * 2 ^ 16 + (buffer 3 % 256) * 2 ^ 24

/-- The fallback loop `while (words_remaining > 0)` of `efr32x_write`; `retval` is the
status carried into the loop. -/
def efr32x_write_words {τ : Type} (T : Target τ) :
    Nat → Int → World τ → (Nat → Nat) → Nat → Int × World τ
  | 0, retval, w, _, _ => (retval, w)
  | n + 1, _, w, buffer, offset =>
    let r := efr32x_write_word T w offset (buf_word buffer)
    if r.1 ≠ ERROR_OK then r
    else efr32x_write_words T n r.1 r.2 (fun i => buffer (i + 4)) ((offset + 4) % 2 ^ 32)

/-- The padded length `(old_count | 3) + 1` as a `uint32_t`. -/
def efr32x_write_pad_count (old_count : Nat) : Nat := ((old_count ||| 3) + 1) % 2 ^ 32

/-- The padding copy: `memset(new_buffer, 0xff, count)` then
`memcpy(new_buffer, buffer, old_count)`. -/
def efr32x_write_pad (buffer : Nat → Nat) (old_count : Nat) : Nat → Nat :=
  fun i => if i < old_count then buffer i else 0xff

/-- The part of `efr32x_write` after validation and padding: unlock, enable write mode,
block write or word-at-a-time fallback, then `reset_pg_and_lock` and `cleanup`. -/
def efr32x_write_tail {τ : Type} (T : Target τ) (bank : flash_bank) (w : World τ)
    (buffer : Nat → Nat) (offset count : Nat) : Int × World τ :=
  let words_remaining := count / 4
  let w1 := (efr32x_msc_lock T w 0).2
  let r := efr32x_set_wren T w1 1
  if r.1 ≠ ERROR_OK then r
  else
    let rb := efr32x_write_block T bank r.2 buffer offset words_remaining
    let rw :=
      if rb.1 = ERROR_TARGET_RESOURCE_NOT_AVAILABLE then
        efr32x_write_words T words_remaining rb.1 rb.2 buffer offset
      else rb
    let r2 := efr32x_set_wren T rw.2 0
    let w3 := (efr32x_msc_lock T r2.2 1).2
    (if rw.1 = ERROR_OK then r2.1 else rw.1, w3)

/-- The write entry point (`efr32x_write`).  The caller's buffer is read-only
(`const uint8_t *`); padding goes to a fresh host block. -/
def efr32x_write {τ : Type} (H : Host) (T : Target τ) (bank : flash_bank) (w : World τ)
    (buffer : Nat → Nat) (offset count : Nat) : Int × World τ :=
  if T.halted w.tgt = false then (ERROR_TARGET_NOT_HALTED, w)
  else if offset &&& 0x3 ≠ 0 then (ERROR_FLASH_DST_BREAKS_ALIGNMENT, w)
  else if count &&& 0x3 ≠ 0 then
    if H.malloc_ok (efr32x_write_pad_count count) = false then (ERROR_FAIL, w)
    else
      efr32x_write_tail T bank w (efr32x_write_pad buffer count) offset
        (efr32x_write_pad_count count)
  else efr32x_write_tail T bank w buffer offset count

/-! ## Lock-bit page mirror -/

/-- The mirror at bank creation and at the start of a probe: `memset(lb_page, 0xff, 512)`. -/
def lb_page_init : Fin 128 → Nat := fun _ => 0xFFFFFFFF

/-- Bounds-checked read of `lb_page[i]`; `none` is an access outside the array. -/
def lb_page_get (lb : Fin 128 → Nat) (i : Nat) : Option Nat :=
  if h : i < 128 then some (lb ⟨i, h⟩) else none

/-- Bounds-checked store to `lb_page[i]`; `none` is an access outside the array. -/
def lb_page_set (lb : Fin 128 → Nat) (i : Nat) (v : Nat) : Option (Fin 128 → Nat) :=
  if i < 128 then some (fun j => if j.val = i then v else lb j) else none

/-- The byte view `(uint8_t *)efr32x_info->lb_page` on a little-endian host. -/
def lb_page_bytes (lb : Fin 128 → Nat) : Nat → Nat :=
  fun j => if h : j / 4 < 128 then (lb ⟨j / 4, h⟩ >>> (8 * (j % 4))) % 256 else 0

def efr32x_get_page_lock (bank : flash_bank) (page : Nat) : Option Int :=
  match lb_page_get bank.lb_page (page >>> 5) with
  | none => none
  | some dw =>
    let mask := (1 <<< (page &&& 0x1f)) % 2 ^ 32
    some (if dw &&& mask ≠ 0 then 0 else 1)

def efr32x_set_page_lock (bank : flash_bank) (page : Nat) (set : Int) :
    Option (Int × flash_bank) :=
  match lb_page_get bank.lb_page (page >>> 5) with
  | none => none
  | some dw =>
    let mask := (1 <<< (page &&& 0x1f)) % 2 ^ 32
    let dw1 := if set = 0 then dw ||| mask else dw &&& not32 mask
    match lb_page_set bank.lb_page (page >>> 5) dw1 with
    | none => none
    | some lb => some (ERROR_OK, { bank with lb_page := lb })

/-- One read of `efr32x_read_lock_data`: `target_read_u32(target, LOCK_BITS + i*4, ptr)` with
`ptr = lb_page + i`. -/
def efr32x_read_lock_word {τ : Type} (T : Target τ) (bank : flash_bank) (w : World τ) (i : Nat) :
    Option (Int × flash_bank × World τ) :=
  let r := target_read_u32 T w (EFR32_MSC_LOCK_BITS + i * 4)
  match lb_page_set bank.lb_page i r.2.1 with
  | none => none
  | some lb => some (r.1, { bank with lb_page := lb }, r.2.2)

/-- The loop `for (i = 0; i < data_size; i++, ptr++)` of `efr32x_read_lock_data`, with `n`
iterations left starting at index `i`. -/
def efr32x_read_lock_words {τ : Type} (T : Target τ) :
    Nat → Nat → flash_bank → World τ → Option (Int × flash_bank × World τ)
  | 0, _, bank, w => some (ERROR_OK, bank, w)
  | n + 1, i, bank, w =>
    match efr32x_read_lock_word T bank w i with
    | none => none
    | some r =>
      if r.1 ≠ ERROR_OK then some r
      else efr32x_read_lock_words T n (i + 1) r.2.1 r.2.2

/-- Refresh the mirror from the device (`efr32x_read_lock_data`); `none` is a failed
`assert` or a store outside `lb_page`. -/
def efr32x_read_lock_data {τ : Type} (T : Target τ) (bank : flash_bank) (w : World τ) :
    Option (Int × flash_bank × World τ) :=
  if bank.num_sectors ≤ 0 then none
  else
    let data_size := (bank.num_sectors + 31) / 32
    match efr32x_read_lock_words T data_size.toNat 0 bank w with
    | none => none
    | some r0 =>
      if r0.1 ≠ ERROR_OK then some r0
      else
        match efr32x_read_lock_word T r0.2.1 r0.2.2 126 with
        | none => none
        | some r1 =>
          if r1.1 ≠ ERROR_OK then some r1
          else
            match efr32x_read_lock_word T r1.2.1 r1.2.2 127 with
            | none => none
            | some r2 =>
              if r2.1 ≠ ERROR_OK then some r2
              else
                match efr32x_read_lock_word T r2.2.1 r2.2.2 125 with
                | none => none
                | some r3 => if r3.1 ≠ ERROR_OK then some r3 else some (ERROR_OK, r3.2.1, r3.2.2)

/-- Flush the mirror (`efr32x_write_lock_data`): erase the lock-bit page, then write the
512 bytes back through `efr32x_write`. -/
def efr32x_write_lock_data {τ : Type} (H : Host) (T : Target τ) (bank : flash_bank)
    (w : World τ) : Int × World τ :=
  let r := efr32x_erase_page T w EFR32_MSC_LOCK_BITS
  if r.1 ≠ ERROR_OK then r
  else efr32x_write H T bank r.2 (lb_page_bytes bank.lb_page) EFR32_MSC_LOCK_BITS LOCKBITS_PAGE_SZ

/-- The loop `for (i = first; i <= last; i++)` of `efr32x_protect`, with `n` iterations
left; the `int` index is converted to `size_t`. -/
def efr32x_protect_pages : Nat → Int → flash_bank → Int → Option (Int × flash_bank)
  | 0, _, bank, _ => some (ERROR_OK, bank)
  | n + 1, i, bank, set =>
    match efr32x_set_page_lock bank (i % 2 ^ 64).toNat set with
    | none => none
    | some r =>
      if r.1 ≠ ERROR_OK then some r
      else efr32x_protect_pages n (i + 1) r.2 set

/-- Set page protection (`efr32x_protect`); `none` is an access outside `lb_page`. -/
def efr32x_protect {τ : Type} (H : Host) (T : Target τ) (bank : flash_bank) (w : World τ)
    (set first last : Int) : Option (Int × flash_bank × World τ) :=
  if set = 0 then some (ERROR_FAIL, bank, w)
  else if T.halted w.tgt = false then some (ERROR_TARGET_NOT_HALTED, bank, w)
  else
    match efr32x_protect_pages (last - first + 1).toNat first bank set with
    | none => none
    | some r =>
      if r.1 ≠ ERROR_OK then some (r.1, r.2, w)
      else
        let r2 := efr32x_write_lock_data H T r.2 w
        if r2.1 ≠ ERROR_OK then some (r2.1, r.2, r2.2) else some (ERROR_OK, r.2, r2.2)

/-! ## Device descriptor probe -/

/-- The C expression `1 << s` on a 32-bit `int`; for `s >= 32` the result is the
platform's. -/
def shl_one (H : Host) (s : Nat) : Int :=
  if s < 32 then (2 : Int) ^ s else H.shl_wide s

/-- Conversion of an `int` to `uint16_t`. -/
def to_u16 (x : Int) : Nat := (x % 65536).toNat

def efr32_info_zero : efr32_info :=
  { flash_sz_kib := 0, ram_sz_kib := 0, part_num := 0, part_family := 0, prod_rev := 0,
    page_size := 0 }

/-- Read and validate the device descriptor (`efr32x_read_info`). -/
def efr32x_read_info {τ : Type} (H : Host) (T : Target τ) (w : World τ) :
    Int × efr32_info × World τ :=
  let i0 := efr32_info_zero
  let r0 := target_read_u32 T w CPUID
  if r0.1 ≠ ERROR_OK then (r0.1, i0, r0.2.2)
  else if ¬ ((r0.2.1 >>> 4) &&& 0xfff = 0xc23 ∨ (r0.2.1 >>> 4) &&& 0xfff = 0xc24 ∨
      (r0.2.1 >>> 4) &&& 0xfff = 0xc60) then (ERROR_FAIL, i0, r0.2.2)
  else
    let r1 := target_read_u16 T r0.2.2 EFR32_MSC_DI_FLASH_SZ
    let i1 := { i0 with flash_sz_kib := r1.2.1 }
    if r1.1 ≠ ERROR_OK then (r1.1, i1, r1.2.2)
    else
      let r2 := target_read_u16 T r1.2.2 EFR32_MSC_DI_RAM_SZ
      let i2 := { i1 with ram_sz_kib := r2.2.1 }
      if r2.1 ≠ ERROR_OK then (r2.1, i2, r2.2.2)
      else
        let r3 := target_read_u16 T r2.2.2 EFR32_MSC_DI_PART_NUM
        let i3 := { i2 with part_num := r3.2.1 }
        if r3.1 ≠ ERROR_OK then (r3.1, i3, r3.2.2)
        else
          let r4 := target_read_u8 T r3.2.2 EFR32_MSC_DI_PART_FAMILY
          let i4 := { i3 with part_family := r4.2.1 }
          if r4.1 ≠ ERROR_OK then (r4.1, i4, r4.2.2)
          else
            let r5 := target_read_u8 T r4.2.2 EFR32_MSC_DI_PROD_REV
            let i5 := { i4 with prod_rev := r5.2.1 }
            if r5.1 ≠ ERROR_OK then (r5.1, i5, r5.2.2)
            else if EFR_FAMILY_ID_BLUE_GECKO = i5.part_family ∨
                EFR_FAMILY_ID_MIGHTY_GECKO = i5.part_family then
              let r6 := target_read_u8 T r5.2.2 EFR32_MSC_DI_PAGE_SIZE
              if r6.1 ≠ ERROR_OK then (r6.1, i5, r6.2.2)
              else
                let i6 := { i5 with page_size := to_u16 (shl_one H ((r6.2.1 + 10) &&& 0xff)) }
                if 2048 ≠ i6.page_size then (ERROR_FAIL, i6, r6.2.2)
                else (ERROR_OK, i6, r6.2.2)
            else (ERROR_FAIL, i5, r5.2.2)

/-! ## Sector erase, protection check, probe and debug lock -/

/-- Modelled from the spec: the buffer-too-small code of `helper/log.h` (not under
`src/`), returned by the part-description helper. -/
def ERROR_BUF_TOO_SMALL : Int := -3

/-- Modelled from the spec: the syntax-error code of `helper/command.h` (not under
`src/`), returned by the console command when its argument is missing. -/
def ERROR_COMMAND_SYNTAX_ERROR : Int := -601

/-- Modelled from the spec: `sizeof(struct flash_sector)`; the structure is declared in
`flash/nor/core.h` (not under `src/`) and holds the four fields the spec lists for a
sector (offset, size, erased, protected). -/
def sizeof_flash_sector : Nat := 16

/-- The element `bank->sectors[i]` for an `int` index; `none` is an access outside the
sector table. -/
def sector_at (bank : flash_bank) (i : Int) : Option flash_sector :=
  if 0 ≤ i then bank.sectors[i.toNat]? else none

/-- The loop `for (i = first; i <= last; i++)` of `efr32x_erase`, with `n` iterations left;
the status carried along is that of the last page erase (it is only logged). -/
def efr32x_erase_pages {τ : Type} (T : Target τ) (bank : flash_bank) :
    Nat → Int → Int → World τ → Option (Int × World τ)
  | 0, _, ret, w => some (ret, w)
  | n + 1, i, _, w =>
    match sector_at bank i with
    | none => none
    | some s =>
      let r := efr32x_erase_page T w s.offset
      efr32x_erase_pages T bank n (i + 1) r.1 r.2

/-- Erase the sectors `first..last` (`efr32x_erase`); `none` is an access outside the
sector table. -/
def efr32x_erase {τ : Type} (T : Target τ) (bank : flash_bank) (w : World τ)
    (first last : Int) : Option (Int × World τ) :=
  if T.halted w.tgt = false then some (ERROR_TARGET_NOT_HALTED, w)
  else
    let w1 := (efr32x_msc_lock T w 0).2
    let r := efr32x_set_wren T w1 1
    if r.1 ≠ ERROR_OK then some r
    else
      match efr32x_erase_pages T bank (last - first + 1).toNat first r.1 r.2 with
      | none => none
      | some rp =>
        let r2 := efr32x_set_wren T rp.2 0
        let w3 := (efr32x_msc_lock T r2.2 1).2
        some (r2.1, w3)

/-- The number of characters `snprintf` produces for `%d` of a value in 0..255. -/
def decimal_width (n : Nat) : Int := if n < 10 then 1 else if n < 100 then 2 else 3

/-- The status of the part-description helper (`efr32x_decode_info`) for a buffer of
`buf_size` bytes: each `snprintf` consumes the length of its text ("EFR32 ", the family
name, " - Rev: " followed by the revision in decimal). -/
def efr32x_decode_info (info : efr32_info) (buf_size : Int) : Int :=
  let size1 := buf_size - 6
  if 0 ≥ size1 then ERROR_BUF_TOO_SMALL
  else
    let printed : Int :=
      if info.part_family = EFR_FAMILY_ID_MIGHTY_GECKO then 12
      else if info.part_family = EFR_FAMILY_ID_BLUE_GECKO then 10
      else 13
    let size2 := size1 - printed
    if 0 ≥ size2 then ERROR_BUF_TOO_SMALL
    else
      let size3 := size2 - (8 + decimal_width info.prod_rev)
      if 0 ≥ size3 then ERROR_BUF_TOO_SMALL else ERROR_OK

/-- The sector table built at the end of `efr32x_probe`. -/
def efr32x_probe_sectors (num_pages page_size : Nat) : List flash_sector :=
  (List.range num_pages).map
    (fun i => { offset := (i * page_size) % 2 ^ 32, size := page_size, is_erased := -1,
                is_protected := 1 })

/-- Probe the device and build the bank geometry (`efr32x_probe`); `none` is a failed
`assert`, an access outside `lb_page`, or the unchecked `malloc` of the sector table
returning `NULL`. -/
def efr32x_probe {τ : Type} (H : Host) (T : Target τ) (bank : flash_bank) (w : World τ) :
    Option (Int × flash_bank × World τ) :=
  let bank0 : flash_bank := { bank with probed := 0, lb_page := lb_page_init }
  let ri := efr32x_read_info H T w
  if ri.1 ≠ ERROR_OK then some (ri.1, bank0, ri.2.2)
  else
    let rd := efr32x_decode_info ri.2.1 256
    if rd ≠ ERROR_OK then some (rd, bank0, ri.2.2)
    else if ri.2.1.page_size = 0 then none
    else
      let num_pages : Int := ((ri.2.1.flash_sz_kib : Int) * 1024) / (ri.2.1.page_size : Int)
      if num_pages ≤ 0 then none
      else
        let bank1 : flash_bank :=
          { bank0 with sectors := [], base := 0,
                       size := (num_pages.toNat * ri.2.1.page_size) % 2 ^ 32,
                       num_sectors := num_pages }
        match efr32x_read_lock_data T bank1 ri.2.2 with
        | none => none
        | some r =>
          if r.1 ≠ ERROR_OK then some r
          else if H.malloc_ok (sizeof_flash_sector * num_pages.toNat) = false then none
          else
            some (ERROR_OK,
              { r.2.1 with sectors := efr32x_probe_sectors num_pages.toNat ri.2.1.page_size,
                           probed := 1 },
              r.2.2)

/-- The console command locking the debug interface (`efr32x_handle_debuglock_command`),
for `cmd_argc` arguments and the status `get_bank` with which the framework resolved the
bank argument. -/
def efr32x_handle_debuglock_command {τ : Type} (H : Host) (T : Target τ) (cmd_argc : Nat)
    (get_bank : Int) (bank : flash_bank) (w : World τ) : Int × flash_bank × World τ :=
  if cmd_argc < 1 then (ERROR_COMMAND_SYNTAX_ERROR, bank, w)
  else if get_bank ≠ ERROR_OK then (get_bank, bank, w)
  else if T.halted w.tgt = false then (ERROR_TARGET_NOT_HALTED, bank, w)
  else
    let bank1 : flash_bank :=
      { bank with lb_page := fun j => if j.val = 127 then 0 else bank.lb_page j }
    let r := efr32x_write_lock_data H T bank1 w
    if r.1 ≠ ERROR_OK then (r.1, bank1, r.2) else (ERROR_OK, bank1, r.2)

/-! ## Predicates and trace projections used to state the properties -/

/-- The world in which `efr32x_write` calls `efr32x_write_block`: after the unlock and the
enabling of write mode. -/
def efr32x_write_enabled {τ : Type} (T : Target τ) (w : World τ) : World τ :=
  (efr32x_set_wren T (efr32x_msc_lock T w 0).2 1).2

/-- The core variant read from `CPUID` is one of the three recognised ones, in every
target state. -/
def RecognisedCore {τ : Type} (T : Target τ) : Prop :=
  ∀ t : τ, (((T.read_u32 t CPUID).2.1 % 2 ^ 32) >>> 4) &&& 0xfff = 0xc23 ∨
    (((T.read_u32 t CPUID).2.1 % 2 ^ 32) >>> 4) &&& 0xfff = 0xc24 ∨
    (((T.read_u32 t CPUID).2.1 % 2 ^ 32) >>> 4) &&& 0xfff = 0xc60

/-- The part family read from the descriptor is Blue Gecko or Mighty Gecko, in every
target state. -/
def RecognisedFamily {τ : Type} (T : Target τ) : Prop :=
  ∀ t : τ, EFR_FAMILY_ID_BLUE_GECKO = (T.read_u8 t EFR32_MSC_DI_PART_FAMILY).2.1 % 2 ^ 8 ∨
    EFR_FAMILY_ID_MIGHTY_GECKO = (T.read_u8 t EFR32_MSC_DI_PART_FAMILY).2.1 % 2 ^ 8

/-- Every descriptor read succeeds, in every target state. -/
def ReadsSucceed {τ : Type} (T : Target τ) : Prop :=
  ∀ (t : τ) (a : Nat), (T.read_u8 t a).1 = ERROR_OK ∧ (T.read_u16 t a).1 = ERROR_OK ∧
    (T.read_u32 t a).1 = ERROR_OK

/-- Every read of the status register succeeds and shows the busy bit set, in every target
state. -/
def AlwaysBusy {τ : Type} (T : Target τ) : Prop :=
  ∀ t : τ, (T.read_u32 t EFR32_MSC_STATUS).1 = ERROR_OK ∧
    ((T.read_u32 t EFR32_MSC_STATUS).2.1 % 2 ^ 32) &&& EFR32_MSC_STATUS_BUSY_MASK ≠ 0

/-- The collaborator calls of a busy-wait that never sees its condition, with `n` sleeps:
a status read, then `n` times a 1 ms sleep followed by a status read. -/
def busy_trace : Nat → List Event
  | 0 => [Event.read_u32 EFR32_MSC_STATUS]
  | n + 1 => Event.read_u32 EFR32_MSC_STATUS :: Event.alive_sleep 1 :: busy_trace n

/-- The events a call appended to the trace. -/
def new_events (before after : List Event) : List Event := after.drop before.length

/-- The number of status-register reads (polls) in a list of events. -/
def polls (evs : List Event) : Nat := evs.count (Event.read_u32 EFR32_MSC_STATUS)

/-- The sizes requested from `target_alloc_working_area_try`, in order. -/
def alloc_try_sizes (evs : List Event) : List Nat :=
  evs.filterMap (fun e => match e with
    | Event.alloc_working_area_try size => some size
    | _ => none)

/-- The ring-buffer areas with which the loader was run, in order. -/
def run_sources (evs : List Event) : List working_area :=
  evs.filterMap (fun e => match e with
    | Event.run_flash_async_algorithm _ _ _ source _ => some source
    | _ => none)

/-- The values written to register `reg`, in order. -/
def reg_writes (reg : Nat) (evs : List Event) : List Nat :=
  evs.filterMap (fun e => match e with
    | Event.write_u32 addr val => if addr = reg then some val else none
    | _ => none)

/-- The sectors `first..last` of the bank's sector table, in order. -/
def sector_range (bank : flash_bank) (first last : Int) : List flash_sector :=
  (bank.sectors.drop first.toNat).take (last - first + 1).toNat

/-- The world after `efr32x_erase_page` has been invoked on each of the given sectors, in
order, whatever each invocation returned. -/
def erase_each {τ : Type} (T : Target τ) (w : World τ) (pages : List flash_sector) : World τ :=
  pages.foldl (fun w1 s => (efr32x_erase_page T w1 s.offset).2) w

/-! ## A configurable simulated target, and concrete banks -/

/-- Configuration of a stateless simulated target: what each collaborator call answers. -/
structure SimCfg where
  halted : Bool
  status : Nat
  cpuid : Nat
  read8 : Nat → Nat
  read16 : Nat → Nat
  lock_words : Nat → Nat
  read_ret : Nat → Int
  write_ret : Nat → Int
  alloc_ret : Int
  alloc_try_limit : Nat
  write_buffer_ret : Int
  run_ret : Int

/-- The simulated target: reads of the status register answer `status`, reads of the
CPU-ID register answer `cpuid`, reads of the lock-bit region answer `lock_words`, every
other 32-bit read answers 0; `alloc_working_area_try` succeeds exactly for sizes below
`alloc_try_limit`. -/
def simTarget (c : SimCfg) : Target Unit where
  halted := fun _ => c.halted
  read_u8 := fun _ addr => (c.read_ret addr, c.read8 addr, ())
  read_u16 := fun _ addr => (c.read_ret addr, c.read16 addr, ())
  read_u32 := fun _ addr =>
    (c.read_ret addr,
      if addr = EFR32_MSC_STATUS then c.status
      else if addr = CPUID then c.cpuid
      else if EFR32_MSC_LOCK_BITS ≤ addr ∧ addr < EFR32_MSC_LOCK_BITS + LOCKBITS_PAGE_SZ then
        c.lock_words ((addr - EFR32_MSC_LOCK_BITS) / 4)
      else 0, ())
  write_u32 := fun _ addr _ => (c.write_ret addr, ())
  alloc_working_area := fun _ size => (c.alloc_ret, { address := 0x20000000, size := size }, ())
  alloc_working_area_try := fun _ size =>
    (if size < c.alloc_try_limit then ERROR_OK else ERROR_TARGET_RESOURCE_NOT_AVAILABLE,
      { address := 0x20001000, size := size }, ())
  free_working_area := fun _ _ => ()
  write_buffer := fun _ _ _ => (c.write_buffer_ret, ())
  run_flash_async_algorithm := fun _ _ _ regs _ _ => (c.run_ret, regs, ())

/-- The descriptor bytes of a Mighty Gecko whose page-size byte is `v`. -/
def simInfo8 (v : Nat) : Nat → Nat :=
  fun addr =>
    if addr = EFR32_MSC_DI_PART_FAMILY then EFR_FAMILY_ID_MIGHTY_GECKO
    else if addr = EFR32_MSC_DI_PAGE_SIZE then v
    else 0

/-- A well-behaved device: a halted Cortex-M4 Mighty Gecko with 128 KiB of flash and
2048-byte pages, never busy, always ready for data, every call succeeds, ring buffers of
any size are available. -/
def simOk : SimCfg :=
  { halted := true, status := 0x8, cpuid := 0x410FC241, read8 := simInfo8 1,
    read16 := fun addr => if addr = EFR32_MSC_DI_FLASH_SZ then 128 else 0,
    lock_words := fun _ => 0xFFFFFFFF, read_ret := fun _ => 0,
    write_ret := fun _ => 0, alloc_ret := 0, alloc_try_limit := 16385, write_buffer_ret := 0,
    run_ret := 0 }

/-- A host on which `malloc` always succeeds and an over-wide shift yields 0. -/
def simHost : Host := { malloc_ok := fun _ => true, shl_wide := fun _ => 0 }

/-- The initial world of the simulated target: nothing traced, nothing leased. -/
def world0 : World Unit := { tgt := (), trace := [], leased := [] }

/-- A caller buffer with bytes 1, 2, 3, ... -/
def bufCount : Nat → Nat := fun i => (i + 1) % 256

/-- A probed bank of 64 pages of 2048 bytes with a fully unlocked mirror. -/
def bank64 : flash_bank :=
  { base := 0, size := 64 * 2048, num_sectors := 64,
    sectors := (List.range 64).map
      (fun i => { offset := i * 2048, size := 2048, is_erased := -1, is_protected := 1 }),
    probed := 1, lb_page := lb_page_init }

/-- A bank whose sector count (4097) exceeds the 4096 bits of the 128-word mirror, as the
probe computes it for a device reporting 8194 KiB of flash. -/
def bank4097 : flash_bank :=
  { base := 0, size := 4097 * 2048, num_sectors := 4097, sectors := [], probed := 1,
    lb_page := lb_page_init }

/-- The well-behaved device, but running (not halted). -/
def simRunning : SimCfg := { simOk with halted := false }

/-- The well-behaved device with page-size byte `v`. -/
def simPageByte (v : Nat) : SimCfg := { simOk with read8 := simInfo8 v }

/-- A halted device whose status register always shows BUSY. -/
def simBusy : SimCfg := { simOk with status := 0x1 }

/-- A halted device on which the loader area is granted but uploading the loader fails. -/
def simUploadFails : SimCfg := { simOk with write_buffer_ret := ERROR_FAIL }

/-- A halted device that grants the loader area but no ring buffer of any size. -/
def simNoBuffer : SimCfg := { simOk with alloc_try_limit := 0 }

/-- A halted device that grants ring buffers of at most 512 bytes. -/
def simBuffer512 : SimCfg := { simOk with alloc_try_limit := 513 }

/-- A halted device that grants ring buffers of at most 256 bytes. -/
def simBuffer256 : SimCfg := { simOk with alloc_try_limit := 257 }

/-- A halted device whose status register always shows LOCKED: every page is
write-protected. -/
def simPageLocked : SimCfg := { simOk with status := 0x2 }

/-- A halted device whose status register always shows INVADDR. -/
def simInvalidAddr : SimCfg := { simOk with status := 0x4 }

/-- The well-behaved device, but reporting 8194 KiB of flash: 4097 pages of 2048
bytes. -/
def simFlash8194 : SimCfg :=
  { simOk with read16 := fun addr => if addr = EFR32_MSC_DI_FLASH_SZ then 8194 else 0 }

/-! ## Bit-level facts -/

theorem and_three_eq_mod (x : Nat) : x &&& 0x3 = x % 4 := by
  have h := Nat.and_pow_two_sub_one_eq_mod x 2
  norm_num at h
  exact h

/-- C3.  `efr32x_write` validates before touching the target: on a target that is not
halted it returns `ERROR_TARGET_NOT_HALTED`, and on a halted target with an offset that is
not a multiple of 4 it returns `ERROR_FLASH_DST_BREAKS_ALIGNMENT`; in both cases, for every
buffer and count, the world is returned as it was: no collaborator call is recorded in
the trace and the target state is untouched. -/
theorem write_validates_before_access {τ : Type} (H : Host) (T : Target τ) (bank : flash_bank)
    (w : World τ) (buffer : Nat → Nat) (offset count : Nat) :
    (T.halted w.tgt = false →
      efr32x_write H T bank w buffer offset count = (ERROR_TARGET_NOT_HALTED, w)) ∧
    (T.halted w.tgt = true → offset % 4 ≠ 0 →
      efr32x_write H T bank w buffer offset count = (ERROR_FLASH_DST_BREAKS_ALIGNMENT, w)) := by
  constructor
  · intro h
    simp only [efr32x_write, h, if_true]
  · intro h hoff
    have h1 : offset &&& 0x3 ≠ 0 := by rw [and_three_eq_mod]; exact hoff
    simp only [efr32x_write, h, Bool.true_eq_false, if_false, if_pos h1]

/-- Witness for C3: a running device, and a halted device with offset 6. -/
theorem write_validates_before_access_witness :
    (simTarget simRunning).halted world0.tgt = false ∧
    efr32x_write simHost (simTarget simRunning) bank64 world0 bufCount 0 8 =
      (ERROR_TARGET_NOT_HALTED, world0) ∧
    (simTarget simOk).halted world0.tgt = true ∧ 6 % 4 ≠ 0 ∧
    efr32x_write simHost (simTarget simOk) bank64 world0 bufCount 6 8 =
      (ERROR_FLASH_DST_BREAKS_ALIGNMENT, world0) :=
  ⟨rfl,
    (write_validates_before_access simHost (simTarget simRunning) bank64 world0 bufCount 0 8).1
      rfl,
    rfl, by decide,
    (write_validates_before_access simHost (simTarget simOk) bank64 world0 bufCount 6 8).2
      rfl (by decide)⟩

/-! ## Device descriptor probe: page size -/

theorem to_u16_shl_small (H : Host) (s : Nat) (hs : s < 32) :
    to_u16 (shl_one H s) = 2 ^ s % 65536 := by
  simp only [to_u16, shl_one, if_pos hs]
  have h : ((2 : Int) ^ s % 65536) = ((2 ^ s % 65536 : Nat) : Int) := by push_cast; rfl
  rw [h, Int.toNat_ofNat]

theorem page_size_2048_iff (v : Nat) (hv : v < 256) (hs : (v + 10) &&& 0xff < 32) :
    2048 = 2 ^ ((v + 10) &&& 0xff) % 65536 ↔ v = 1 := by
  have hm : (v + 10) &&& 0xff = (v + 10) % 256 := by
    have h := Nat.and_pow_two_sub_one_eq_mod (v + 10) 8
    norm_num at h
    exact h
  rw [hm] at hs ⊢
  constructor
  · intro h
    by_contra hne
    have hcases : (v + 10) % 256 < 32 := hs
    generalize hk : (v + 10) % 256 = k at h hcases
    have hk11 : k ≠ 11 := by omega
    interval_cases k <;> simp_all
  · intro h
    subst h
    decide

/-- C4 (amended).  For every page-size byte `v` in 0..255 read during `efr32x_read_info`
(recognised core, recognised family, all reads succeeding), the stored 16-bit `page_size`
is `1 << ((v + 10) & 0xff)` truncated to 16 bits: it equals `1 << (v + 10)` for `v <= 5`,
is 0 for `6 <= v <= 21` and is `1 << (v - 246)` for `v >= 246`.  For every `v` whose shift
count `(v + 10) & 0xff` is below the width of `int` (that is `v <= 21` or `v >= 246`), the
probe succeeds if and only if `v = 1`. -/
theorem read_info_page_size {τ : Type} (H : Host) (T : Target τ) (w : World τ) (v : Nat)
    (hv : v < 256) (hok : ReadsSucceed T) (hcore : RecognisedCore T)
    (hfam : RecognisedFamily T)
    (hpg : ∀ t : τ, (T.read_u8 t EFR32_MSC_DI_PAGE_SIZE).2.1 = v) :
    (efr32x_read_info H T w).2.1.page_size = to_u16 (shl_one H ((v + 10) &&& 0xff)) ∧
    (v ≤ 5 → (efr32x_read_info H T w).2.1.page_size = 1 <<< (v + 10)) ∧
    (6 ≤ v → v ≤ 21 → (efr32x_read_info H T w).2.1.page_size = 0) ∧
    (246 ≤ v → (efr32x_read_info H T w).2.1.page_size = 1 <<< (v - 246)) ∧
    ((v + 10) &&& 0xff < 32 → ((efr32x_read_info H T w).1 = ERROR_OK ↔ v = 1)) := by
  have hv8 : v % 2 ^ 8 = v := Nat.mod_eq_of_lt (by omega)
  have h8 : ∀ t a, (T.read_u8 t a).1 = ERROR_OK := fun t a => (hok t a).1
  have h16 : ∀ t a, (T.read_u16 t a).1 = ERROR_OK := fun t a => (hok t a).2.1
  have h32 : ∀ t a, (T.read_u32 t a).1 = ERROR_OK := fun t a => (hok t a).2.2
  have hm : (v + 10) &&& 0xff = (v + 10) % 256 := by
    have h := Nat.and_pow_two_sub_one_eq_mod (v + 10) 8
    norm_num at h
    exact h
  -- the descriptor and status produced by the probe
  have hinfo : (efr32x_read_info H T w).2.1.page_size =
        to_u16 (shl_one H ((v + 10) &&& 0xff)) ∧
      (efr32x_read_info H T w).1 =
        (if 2048 ≠ to_u16 (shl_one H ((v + 10) &&& 0xff)) then ERROR_FAIL else ERROR_OK) := by
    have hc := hcore w.tgt
    simp only [efr32x_read_info, target_read_u32, target_read_u16, target_read_u8, h8, h16, h32,
      ne_eq, not_true_eq_false, if_false, hc, hfam _, if_true, hpg, hv8]
    split <;> simp
  refine ⟨hinfo.1, ?_, ?_, ?_, ?_⟩
  · intro h5
    rw [hinfo.1, to_u16_shl_small H _ (by rw [hm]; omega), hm, Nat.one_shiftLeft]
    have h1 : (v + 10) % 256 = v + 10 := by omega
    rw [h1]
    apply Nat.mod_eq_of_lt
    calc 2 ^ (v + 10) ≤ 2 ^ 15 := Nat.pow_le_pow_right (by norm_num) (by omega)
      _ < 65536 := by norm_num
  · intro h6 h21
    rw [hinfo.1, to_u16_shl_small H _ (by rw [hm]; omega), hm]
    have h1 : (v + 10) % 256 = 16 + (v - 6) := by omega
    rw [h1, Nat.pow_add]
    norm_num
  · intro h246
    rw [hinfo.1, to_u16_shl_small H _ (by rw [hm]; omega), hm, Nat.one_shiftLeft]
    have h1 : (v + 10) % 256 = v - 246 := by omega
    rw [h1]
    apply Nat.mod_eq_of_lt
    calc 2 ^ (v - 246) ≤ 2 ^ 9 := Nat.pow_le_pow_right (by norm_num) (by omega)
      _ < 65536 := by norm_num
  · intro hs
    rw [hinfo.2, to_u16_shl_small H _ hs]
    have hiff := page_size_2048_iff v hv hs
    by_cases h : 2048 = 2 ^ ((v + 10) &&& 0xff) % 65536
    · simp only [ne_eq, h, not_true_eq_false, if_false, true_iff]
      exact hiff.mp h
    · have hne : ERROR_FAIL ≠ ERROR_OK := by decide
      simp only [ne_eq, h, not_false_eq_true, if_true, hne, false_iff]
      exact fun hv1 => h (hiff.mpr hv1)

/-- Witness for C4: the page-size byte 1 of a simulated Mighty Gecko is decoded to 2048
and the probe succeeds. -/
theorem read_info_page_size_witness :
    (1 : Nat) < 256 ∧ ReadsSucceed (simTarget (simPageByte 1)) ∧
    RecognisedCore (simTarget (simPageByte 1)) ∧ RecognisedFamily (simTarget (simPageByte 1)) ∧
    (efr32x_read_info simHost (simTarget (simPageByte 1)) world0).2.1.page_size = 2048 ∧
    (efr32x_read_info simHost (simTarget (simPageByte 1)) world0).1 = ERROR_OK := by
  have hok : ReadsSucceed (simTarget (simPageByte 1)) := fun _ _ => ⟨rfl, rfl, rfl⟩
  have hcore : RecognisedCore (simTarget (simPageByte 1)) := by intro t; cases t; decide
  have hfam : RecognisedFamily (simTarget (simPageByte 1)) := by intro t; cases t; decide
  have h := read_info_page_size simHost (simTarget (simPageByte 1)) world0 1 (by decide) hok
    hcore hfam (fun _ => rfl)
  exact ⟨by decide, hok, hcore, hfam, h.2.1 (by decide), (h.2.2.2.2 (by decide)).mpr rfl⟩

/-- Counterexample for C4 as stated: for the page-size byte 6 the stored 16-bit
`page_size` is 0, not `1 << (6 + 10) = 65536`; for the byte 246 the masked shift count is 0
and the stored value is 1, which is not `1 << 256` either, even truncated to 16 bits (the
probe fails in both cases). -/
theorem read_info_page_size_counterexample :
    (efr32x_read_info simHost (simTarget (simPageByte 6)) world0).2.1.page_size = 0 ∧
    (efr32x_read_info simHost (simTarget (simPageByte 6)) world0).2.1.page_size
      ≠ 1 <<< (6 + 10) ∧
    (efr32x_read_info simHost (simTarget (simPageByte 6)) world0).1 = ERROR_FAIL ∧
    (efr32x_read_info simHost (simTarget (simPageByte 246)) world0).2.1.page_size = 1 ∧
    (1 <<< (246 + 10)) % 2 ^ 16 = 0 := by
  refine ⟨by decide, by decide, by decide, by decide, by decide⟩

/-! ## Status poll -/

theorem polls_busy_trace (n : Nat) : polls (busy_trace n) = n + 1 := by
  induction n with
  | zero => rfl
  | succ n ih =>
    have h : polls (busy_trace (n + 1)) = polls (busy_trace n) + 1 := by
      simp [polls, busy_trace, List.count_cons]
    rw [h, ih]

theorem sleeps_busy_trace (n : Nat) : (busy_trace n).count (Event.alive_sleep 1) = n := by
  induction n with
  | zero => rfl
  | succ n ih =>
    have h : (busy_trace (n + 1)).count (Event.alive_sleep 1) =
        (busy_trace n).count (Event.alive_sleep 1) + 1 := by
      simp [busy_trace, List.count_cons]
    rw [h, ih]

theorem new_events_append (before evs : List Event) : new_events before (before ++ evs) = evs := by
  simp [new_events]

theorem wait_status_loop_busy {τ : Type} (T : Target τ) (hbusy : AlwaysBusy T) :
    ∀ (n : Nat) (w : World τ),
      (efr32x_wait_status_loop T EFR32_MSC_STATUS_BUSY_MASK 0 n w).1 = ERROR_FAIL ∧
      (efr32x_wait_status_loop T EFR32_MSC_STATUS_BUSY_MASK 0 n w).2.trace =
        w.trace ++ busy_trace n ∧
      (efr32x_wait_status_loop T EFR32_MSC_STATUS_BUSY_MASK 0 n w).2.leased = w.leased := by
  intro n
  induction n with
  | zero =>
    intro w
    obtain ⟨h1, h2⟩ := hbusy w.tgt
    simp only [efr32x_wait_status_loop, target_read_u32, h1, h2, ne_eq, not_true_eq_false,
      if_false, false_and, and_false, busy_trace, and_self]
  | succ n ih =>
    intro w
    obtain ⟨h1, h2⟩ := hbusy w.tgt
    have hrec := ih (alive_sleep
      { w with tgt := (T.read_u32 w.tgt EFR32_MSC_STATUS).2.2,
               trace := w.trace ++ [Event.read_u32 EFR32_MSC_STATUS] } 1)
    simp only [efr32x_wait_status_loop, target_read_u32, h1, h2, ne_eq, not_true_eq_false,
      if_false, false_and, and_false]
    refine ⟨hrec.1, ?_, hrec.2.2⟩
    rw [hrec.2.1]
    simp [alive_sleep, busy_trace]

/-- C5 (amended).  For every timeout `N >= 0`, when every read of the status register
succeeds and always shows the busy bit set, `efr32x_wait_status(N, BUSY_MASK, 0)` returns
failure after exactly `N + 1` polls (status reads) separated by exactly `N` sleeps of 1 ms:
the countdown bounds the sleeps, and the register is polled once more than it sleeps. -/
theorem wait_status_busy_timeout {τ : Type} (T : Target τ) (w : World τ) (N : Int)
    (hN : 0 ≤ N) (hbusy : AlwaysBusy T) :
    (efr32x_wait_status T w N EFR32_MSC_STATUS_BUSY_MASK 0).1 = ERROR_FAIL ∧
    (efr32x_wait_status T w N EFR32_MSC_STATUS_BUSY_MASK 0).2.trace =
      w.trace ++ busy_trace N.toNat ∧
    ((polls (new_events w.trace
      (efr32x_wait_status T w N EFR32_MSC_STATUS_BUSY_MASK 0).2.trace) : Nat) : Int) = N + 1 ∧
    (((new_events w.trace (efr32x_wait_status T w N EFR32_MSC_STATUS_BUSY_MASK 0).2.trace).count
      (Event.alive_sleep 1) : Nat) : Int) = N := by
  have h := wait_status_loop_busy T hbusy N.toNat w
  unfold efr32x_wait_status
  refine ⟨h.1, h.2.1, ?_, ?_⟩
  · rw [h.2.1, new_events_append, polls_busy_trace]
    omega
  · rw [h.2.1, new_events_append, sleeps_busy_trace]
    omega

/-- Witness for C5: a timeout of 3 on a device that is always busy. -/
theorem wait_status_busy_timeout_witness :
    (0 : Int) ≤ 3 ∧ AlwaysBusy (simTarget simBusy) ∧
    efr32x_wait_status (simTarget simBusy) world0 3 EFR32_MSC_STATUS_BUSY_MASK 0 =
      (ERROR_FAIL, { world0 with trace := busy_trace 3 }) ∧
    polls (new_events world0.trace
      (efr32x_wait_status (simTarget simBusy) world0 3 EFR32_MSC_STATUS_BUSY_MASK 0).2.trace)
      = 4 := by
  have hb : AlwaysBusy (simTarget simBusy) := by intro t; cases t; decide
  have h := wait_status_busy_timeout (simTarget simBusy) world0 3 (by decide) hb
  refine ⟨by decide, hb, rfl, ?_⟩
  have h3 := h.2.2.1
  omega

/-- Counterexample for C5 as stated: with a timeout of 3 on a device that is always busy
the call fails after 4 status reads, not 3; with a timeout of 0 it still polls once. -/
theorem wait_status_busy_timeout_counterexample :
    (efr32x_wait_status (simTarget simBusy) world0 3 EFR32_MSC_STATUS_BUSY_MASK 0).1
      = ERROR_FAIL ∧
    polls (new_events world0.trace
      (efr32x_wait_status (simTarget simBusy) world0 3 EFR32_MSC_STATUS_BUSY_MASK 0).2.trace)
      = 4 ∧
    polls (new_events world0.trace
      (efr32x_wait_status (simTarget simBusy) world0 0 EFR32_MSC_STATUS_BUSY_MASK 0).2.trace)
      = 1 := by
  refine ⟨by decide, by decide, by decide⟩

/-! ## Write dispatcher: restoration of write-enable and lock -/

theorem set_reg_bits_trace {τ : Type} (T : Target τ) (w : World τ) (reg bitmask : Nat)
    (set : Int) :
    ∃ mid : List Event,
      (efr32x_set_reg_bits T w reg bitmask set).2.trace =
        w.trace ++ Event.read_u32 reg :: mid ∧
      (mid = [] ∨ ∃ v : Nat, mid = [Event.write_u32 reg
        (if set ≠ 0 then v ||| bitmask else v &&& not32 bitmask)]) := by
  by_cases h : (target_read_u32 T w reg).1 ≠ ERROR_OK
  · refine ⟨[], ?_, Or.inl rfl⟩
    have e : efr32x_set_reg_bits T w reg bitmask set =
        ((target_read_u32 T w reg).1, (target_read_u32 T w reg).2.2) := by
      simp only [efr32x_set_reg_bits, if_pos h]
    rw [e]
    rfl
  · refine ⟨[Event.write_u32 reg (if set ≠ 0 then (target_read_u32 T w reg).2.1 ||| bitmask
      else (target_read_u32 T w reg).2.1 &&& not32 bitmask)], ?_, Or.inr ⟨_, rfl⟩⟩
    have e : efr32x_set_reg_bits T w reg bitmask set =
        target_write_u32 T (target_read_u32 T w reg).2.2 reg
          (if set ≠ 0 then (target_read_u32 T w reg).2.1 ||| bitmask
            else (target_read_u32 T w reg).2.1 &&& not32 bitmask) := by
      simp only [efr32x_set_reg_bits, if_neg h]
    rw [e]
    simp only [target_write_u32, target_read_u32, List.append_assoc, List.singleton_append]

/-- C7 (failing input).  When the loader area is granted but uploading the loader fails,
`efr32x_write_block` returns the upload error with the loader area still leased: the set
of leased working areas after the call is not the set before the call. -/
theorem write_block_leaks_on_upload_failure :
    efr32x_write_block (simTarget simUploadFails) bank64 world0 bufCount 0 2 =
      (ERROR_FAIL,
        { tgt := (),
          trace := [Event.alloc_working_area efr32x_flash_write_code.length,
            Event.write_buffer 0x20000000 efr32x_flash_write_code],
          leased := [{ address := 0x20000000, size := efr32x_flash_write_code.length }] }) ∧
    (efr32x_write_block (simTarget simUploadFails) bank64 world0 bufCount 0 2).2.leased
      ≠ world0.leased := by
  refine ⟨rfl, by decide⟩

theorem write_block_source_retry {τ : Type} (T : Target τ) (wa : working_area)
    (fuel buffer_size : Nat) (w : World τ) (hfuel : 0 < fuel)
    (hfail : (T.alloc_working_area_try w.tgt buffer_size).1 ≠ ERROR_OK)
    (hbig : ¬ ((buffer_size / 2) &&& not32 3 ≤ 256)) :
    efr32x_write_block_source T wa fuel buffer_size w =
      efr32x_write_block_source T wa (fuel - 1) ((buffer_size / 2) &&& not32 3)
        (target_alloc_working_area_try T w buffer_size).2.2 := by
  cases fuel with
  | zero => omega
  | succ f =>
    rw [efr32x_write_block_source]
    have h1 : ¬ ((target_alloc_working_area_try T w buffer_size).1 = ERROR_OK) := hfail
    simp only [if_neg h1, if_neg hbig, Nat.add_sub_cancel]

theorem write_block_source_give_up {τ : Type} (T : Target τ) (wa : working_area)
    (fuel buffer_size : Nat) (w : World τ)
    (hfail : (T.alloc_working_area_try w.tgt buffer_size).1 ≠ ERROR_OK)
    (hsmall : (buffer_size / 2) &&& not32 3 ≤ 256) :
    efr32x_write_block_source T wa fuel buffer_size w =
      some (none, target_free_working_area T
        (target_alloc_working_area_try T w buffer_size).2.2 wa) := by
  unfold efr32x_write_block_source
  have h1 : ¬ ((target_alloc_working_area_try T w buffer_size).1 = ERROR_OK) := hfail
  simp only [if_neg h1, if_pos hsmall]

theorem write_block_source_granted {τ : Type} (T : Target τ) (wa : working_area)
    (fuel buffer_size : Nat) (w : World τ)
    (hok : (T.alloc_working_area_try w.tgt buffer_size).1 = ERROR_OK) :
    efr32x_write_block_source T wa fuel buffer_size w =
      some (some (target_alloc_working_area_try T w buffer_size).2.1,
        (target_alloc_working_area_try T w buffer_size).2.2) := by
  unfold efr32x_write_block_source
  have h1 : (target_alloc_working_area_try T w buffer_size).1 = ERROR_OK := hok
  simp only [if_pos h1]

/-- The allocation loop never exhausts an iteration budget as large as its initial size. -/
theorem efr32x_write_block_source_total {τ : Type} (T : Target τ) (wa : working_area) :
    ∀ (fuel buffer_size : Nat) (w : World τ), buffer_size ≤ fuel →
      (efr32x_write_block_source T wa fuel buffer_size w).isSome = true := by
  intro fuel
  induction fuel with
  | zero =>
    intro bs w hle
    have hbs : bs = 0 := by omega
    subst hbs
    rw [efr32x_write_block_source]
    by_cases h : (target_alloc_working_area_try T w 0).1 = ERROR_OK
    · simp only [if_pos h, Option.isSome_some]
    · have hs : (0 / 2) &&& not32 3 ≤ 256 := by decide
      simp only [if_neg h, if_pos hs, Option.isSome_some]
  | succ f ih =>
    intro bs w hle
    rw [efr32x_write_block_source]
    by_cases h : (target_alloc_working_area_try T w bs).1 = ERROR_OK
    · simp only [if_pos h, Option.isSome_some]
    · by_cases hs : (bs / 2) &&& not32 3 ≤ 256
      · simp only [if_neg h, if_pos hs, Option.isSome_some]
      · simp only [if_neg h, if_neg hs]
        apply ih
        have h1 : (bs / 2) &&& not32 3 ≤ bs / 2 := Nat.and_le_left
        omega

theorem write_block_source_all_fail {τ : Type} (T : Target τ) (wa : working_area) (w : World τ)
    (hfail : ∀ (t : τ) (size : Nat), (T.alloc_working_area_try t size).1 ≠ ERROR_OK) :
    ∃ w1 : World τ,
      efr32x_write_block_source T wa 16384 16384 w = some (none, w1) ∧
      w1.trace = w.trace ++
        [Event.alloc_working_area_try 16384, Event.alloc_working_area_try 8192,
         Event.alloc_working_area_try 4096, Event.alloc_working_area_try 2048,
         Event.alloc_working_area_try 1024, Event.alloc_working_area_try 512,
         Event.free_working_area wa] := by
  have e1 : (16384 / 2) &&& not32 3 = 8192 := by decide
  have e2 : (8192 / 2) &&& not32 3 = 4096 := by decide
  have e3 : (4096 / 2) &&& not32 3 = 2048 := by decide
  have e4 : (2048 / 2) &&& not32 3 = 1024 := by decide
  have e5 : (1024 / 2) &&& not32 3 = 512 := by decide
  have h : efr32x_write_block_source T wa 16384 16384 w = some (none,
      target_free_working_area T
        (target_alloc_working_area_try T
          (target_alloc_working_area_try T
            (target_alloc_working_area_try T
              (target_alloc_working_area_try T
                (target_alloc_working_area_try T
                  (target_alloc_working_area_try T w 16384).2.2 8192).2.2 4096).2.2
              2048).2.2 1024).2.2 512).2.2 wa) := by
    rw [write_block_source_retry T wa _ _ _ (by decide) (hfail _ _) (by decide), e1,
      write_block_source_retry T wa _ _ _ (by decide) (hfail _ _) (by decide), e2,
      write_block_source_retry T wa _ _ _ (by decide) (hfail _ _) (by decide), e3,
      write_block_source_retry T wa _ _ _ (by decide) (hfail _ _) (by decide), e4,
      write_block_source_retry T wa _ _ _ (by decide) (hfail _ _) (by decide), e5,
      write_block_source_give_up T wa _ _ _ (hfail _ _) (by decide)]
  refine ⟨_, h, ?_⟩
  simp only [target_alloc_working_area_try, target_free_working_area,
    List.append_assoc, List.singleton_append, List.cons_append, List.nil_append]

theorem write_block_source_grant_512 {τ : Type} (T : Target τ) (wa : working_area) (w : World τ)
    (hfail : ∀ (t : τ) (size : Nat), 512 < size → (T.alloc_working_area_try t size).1 ≠ ERROR_OK)
    (hok : ∀ t : τ, (T.alloc_working_area_try t 512).1 = ERROR_OK) :
    ∃ (w1 : World τ) (t : τ),
      efr32x_write_block_source T wa 16384 16384 w =
        some (some (T.alloc_working_area_try t 512).2.1, w1) ∧
      w1.trace = w.trace ++
        [Event.alloc_working_area_try 16384, Event.alloc_working_area_try 8192,
         Event.alloc_working_area_try 4096, Event.alloc_working_area_try 2048,
         Event.alloc_working_area_try 1024, Event.alloc_working_area_try 512] := by
  have e1 : (16384 / 2) &&& not32 3 = 8192 := by decide
  have e2 : (8192 / 2) &&& not32 3 = 4096 := by decide
  have e3 : (4096 / 2) &&& not32 3 = 2048 := by decide
  have e4 : (2048 / 2) &&& not32 3 = 1024 := by decide
  have e5 : (1024 / 2) &&& not32 3 = 512 := by decide
  have h : efr32x_write_block_source T wa 16384 16384 w =
      some (some (target_alloc_working_area_try T
          (target_alloc_working_area_try T
            (target_alloc_working_area_try T
              (target_alloc_working_area_try T
                (target_alloc_working_area_try T
                  (target_alloc_working_area_try T w 16384).2.2 8192).2.2 4096).2.2
              2048).2.2 1024).2.2 512).2.1,
        (target_alloc_working_area_try T
          (target_alloc_working_area_try T
            (target_alloc_working_area_try T
              (target_alloc_working_area_try T
                (target_alloc_working_area_try T
                  (target_alloc_working_area_try T w 16384).2.2 8192).2.2 4096).2.2
              2048).2.2 1024).2.2 512).2.2) := by
    rw [write_block_source_retry T wa _ _ _ (by decide) (hfail _ _ (by decide)) (by decide), e1,
      write_block_source_retry T wa _ _ _ (by decide) (hfail _ _ (by decide)) (by decide), e2,
      write_block_source_retry T wa _ _ _ (by decide) (hfail _ _ (by decide)) (by decide), e3,
      write_block_source_retry T wa _ _ _ (by decide) (hfail _ _ (by decide)) (by decide), e4,
      write_block_source_retry T wa _ _ _ (by decide) (hfail _ _ (by decide)) (by decide), e5,
      write_block_source_granted T wa _ _ _ (hok _)]
  refine ⟨_, (target_alloc_working_area_try T
          (target_alloc_working_area_try T
            (target_alloc_working_area_try T
              (target_alloc_working_area_try T
                (target_alloc_working_area_try T w 16384).2.2 8192).2.2 4096).2.2
              2048).2.2 1024).2.2.tgt, h, ?_⟩
  simp only [target_alloc_working_area_try, List.append_assoc, List.singleton_append,
    List.cons_append, List.nil_append]

/-- C8 (amended).  When the loader area is granted and uploaded and ring-buffer allocation
keeps failing, `efr32x_write_block` requests the sizes 16384, 8192, 4096, 2048, 1024 and
512 bytes in that order (each a multiple of 4) and returns
`ERROR_TARGET_RESOURCE_NOT_AVAILABLE` once the 512-byte request has failed, without running
the loader: the halved size 256 is not requested.  If the 512-byte request succeeds after
the larger ones failed, the loader is run with the area granted for that request. -/
theorem write_block_buffer_sizes {τ : Type} (T : Target τ) (bank : flash_bank) (w : World τ)
    (buf : Nat → Nat) (offset count : Nat)
    (halloc : ∀ (t : τ) (size : Nat), (T.alloc_working_area t size).1 = ERROR_OK)
    (hupload : ∀ (t : τ) (addr : Nat) (data : List Nat), (T.write_buffer t addr data).1 = ERROR_OK) :
    ((∀ (t : τ) (size : Nat), (T.alloc_working_area_try t size).1 ≠ ERROR_OK) →
      (efr32x_write_block T bank w buf offset count).1 = ERROR_TARGET_RESOURCE_NOT_AVAILABLE ∧
      alloc_try_sizes (new_events w.trace (efr32x_write_block T bank w buf offset count).2.trace)
        = [16384, 8192, 4096, 2048, 1024, 512] ∧
      run_sources (new_events w.trace (efr32x_write_block T bank w buf offset count).2.trace)
        = []) ∧
    ((∀ (t : τ) (size : Nat), 512 < size → (T.alloc_working_area_try t size).1 ≠ ERROR_OK) →
      (∀ t : τ, (T.alloc_working_area_try t 512).1 = ERROR_OK) →
      alloc_try_sizes (new_events w.trace (efr32x_write_block T bank w buf offset count).2.trace)
        = [16384, 8192, 4096, 2048, 1024, 512] ∧
      ∃ t : τ,
        run_sources (new_events w.trace (efr32x_write_block T bank w buf offset count).2.trace)
          = [(T.alloc_working_area_try t 512).2.1]) := by
  have h1 : ¬ ((target_alloc_working_area T w efr32x_flash_write_code.length).1 ≠ ERROR_OK) := by
    intro h; exact h (halloc _ _)
  have h2 : ¬ ((target_write_buffer T
      (target_alloc_working_area T w efr32x_flash_write_code.length).2.2
      (target_alloc_working_area T w efr32x_flash_write_code.length).2.1.address
      efr32x_flash_write_code).1 ≠ ERROR_OK) := by
    intro h; exact h (hupload _ _ _)
  constructor
  · intro hfail
    obtain ⟨w1, hsrc, htr⟩ := write_block_source_all_fail T
      (target_alloc_working_area T w efr32x_flash_write_code.length).2.1
      (target_write_buffer T (target_alloc_working_area T w efr32x_flash_write_code.length).2.2
        (target_alloc_working_area T w efr32x_flash_write_code.length).2.1.address
        efr32x_flash_write_code).2 hfail
    simp only [efr32x_write_block, if_neg h1, if_neg h2, hsrc, htr]
    simp [target_write_buffer, target_alloc_working_area, new_events, alloc_try_sizes,
      run_sources]
  · intro hfail hok
    obtain ⟨w1, t, hsrc, htr⟩ := write_block_source_grant_512 T
      (target_alloc_working_area T w efr32x_flash_write_code.length).2.1
      (target_write_buffer T (target_alloc_working_area T w efr32x_flash_write_code.length).2.2
        (target_alloc_working_area T w efr32x_flash_write_code.length).2.1.address
        efr32x_flash_write_code).2 hfail hok
    refine ⟨?_, t, ?_⟩
    · simp only [efr32x_write_block, if_neg h1, if_neg h2, hsrc, target_free_working_area, htr]
      simp [target_write_buffer, target_alloc_working_area, new_events, alloc_try_sizes]
    · simp only [efr32x_write_block, if_neg h1, if_neg h2, hsrc, target_free_working_area, htr]
      simp [target_write_buffer, target_alloc_working_area, new_events, run_sources]

/-- Witness for C8: a device that grants no ring buffer at all, and a device that grants
ring buffers of at most 512 bytes. -/
theorem write_block_buffer_sizes_witness :
    (∀ (t : Unit) (size : Nat),
      ((simTarget simNoBuffer).alloc_working_area_try t size).1 ≠ ERROR_OK) ∧
    ((efr32x_write_block (simTarget simNoBuffer) bank64 world0 bufCount 0 2).1 =
        ERROR_TARGET_RESOURCE_NOT_AVAILABLE ∧
      alloc_try_sizes (new_events world0.trace
        (efr32x_write_block (simTarget simNoBuffer) bank64 world0 bufCount 0 2).2.trace)
        = [16384, 8192, 4096, 2048, 1024, 512] ∧
      run_sources (new_events world0.trace
        (efr32x_write_block (simTarget simNoBuffer) bank64 world0 bufCount 0 2).2.trace) = []) ∧
    (∀ (t : Unit) (size : Nat), 512 < size →
      ((simTarget simBuffer512).alloc_working_area_try t size).1 ≠ ERROR_OK) ∧
    (∀ t : Unit, ((simTarget simBuffer512).alloc_working_area_try t 512).1 = ERROR_OK) ∧
    (alloc_try_sizes (new_events world0.trace
        (efr32x_write_block (simTarget simBuffer512) bank64 world0 bufCount 0 2).2.trace)
        = [16384, 8192, 4096, 2048, 1024, 512] ∧
      ∃ t : Unit, run_sources (new_events world0.trace
        (efr32x_write_block (simTarget simBuffer512) bank64 world0 bufCount 0 2).2.trace)
        = [((simTarget simBuffer512).alloc_working_area_try t 512).2.1]) := by
  have hA : ∀ (t : Unit) (size : Nat),
      ((simTarget simNoBuffer).alloc_working_area_try t size).1 ≠ ERROR_OK := by
    intro t size
    have h0 : ¬ size < 0 := by omega
    simp only [simTarget, simNoBuffer, if_neg h0]
    decide
  have hB : ∀ (t : Unit) (size : Nat), 512 < size →
      ((simTarget simBuffer512).alloc_working_area_try t size).1 ≠ ERROR_OK := by
    intro t size hs
    have h0 : ¬ size < 513 := by omega
    simp only [simTarget, simBuffer512, if_neg h0]
    decide
  have hC : ∀ t : Unit, ((simTarget simBuffer512).alloc_working_area_try t 512).1 = ERROR_OK :=
    fun _ => rfl
  exact ⟨hA,
    (write_block_buffer_sizes (simTarget simNoBuffer) bank64 world0 bufCount 0 2
      (fun _ _ => rfl) (fun _ _ _ => rfl)).1 hA,
    hB, hC,
    (write_block_buffer_sizes (simTarget simBuffer512) bank64 world0 bufCount 0 2
      (fun _ _ => rfl) (fun _ _ _ => rfl)).2 hB hC⟩

/-- Counterexample for C8 as stated: when every ring-buffer request fails, no 256-byte
request is made (the last size requested is 512); and on a device that would grant a
256-byte ring buffer but nothing larger, `efr32x_write_block` still gives up with
`ERROR_TARGET_RESOURCE_NOT_AVAILABLE` and never runs the loader. -/
theorem write_block_buffer_sizes_counterexample :
    alloc_try_sizes (new_events world0.trace
      (efr32x_write_block (simTarget simNoBuffer) bank64 world0 bufCount 0 2).2.trace)
      = [16384, 8192, 4096, 2048, 1024, 512] ∧
    ((simTarget simBuffer256).alloc_working_area_try () 256).1 = ERROR_OK ∧
    (efr32x_write_block (simTarget simBuffer256) bank64 world0 bufCount 0 2).1
      = ERROR_TARGET_RESOURCE_NOT_AVAILABLE ∧
    256 ∉ alloc_try_sizes (new_events world0.trace
      (efr32x_write_block (simTarget simBuffer256) bank64 world0 bufCount 0 2).2.trace) ∧
    run_sources (new_events world0.trace
      (efr32x_write_block (simTarget simBuffer256) bank64 world0 bufCount 0 2).2.trace) = [] := by
  refine ⟨by decide, by decide, by decide, by decide, by decide⟩

/-! ## Write dispatcher: word-at-a-time fallback -/

theorem reg_writes_append (reg : Nat) (a b : List Event) :
    reg_writes reg (a ++ b) = reg_writes reg a ++ reg_writes reg b := by
  simp [reg_writes, List.filterMap_append]

theorem read_u32_trace {τ : Type} (T : Target τ) (w : World τ) (addr : Nat) :
    (target_read_u32 T w addr).2.2.trace = w.trace ++ [Event.read_u32 addr] := rfl

theorem write_u32_trace {τ : Type} (T : Target τ) (w : World τ) (addr val : Nat) :
    (target_write_u32 T w addr val).2.trace = w.trace ++ [Event.write_u32 addr val] := rfl

theorem set_reg_bits_quiet {τ : Type} (T : Target τ) (w : World τ) (reg bitmask : Nat)
    (set : Int) :
    ∃ evs : List Event,
      (efr32x_set_reg_bits T w reg bitmask set).2.trace = w.trace ++ evs ∧
      ∀ r : Nat, reg ≠ r → reg_writes r evs = [] := by
  obtain ⟨mid, h, hshape⟩ := set_reg_bits_trace T w reg bitmask set
  refine ⟨Event.read_u32 reg :: mid, h, ?_⟩
  intro r hr
  rcases hshape with hm | ⟨v, hm⟩
  · rw [hm]; rfl
  · rw [hm]
    simp [reg_writes, hr]

theorem wait_status_loop_quiet {τ : Type} (T : Target τ) (wait_mask : Nat) (wait_for_set : Int) :
    ∀ (n : Nat) (w : World τ), ∃ evs : List Event,
      (efr32x_wait_status_loop T wait_mask wait_for_set n w).2.trace = w.trace ++ evs ∧
      ∀ r : Nat, reg_writes r evs = [] := by
  intro n
  induction n with
  | zero =>
    intro w
    refine ⟨[Event.read_u32 EFR32_MSC_STATUS], ?_, fun _ => rfl⟩
    unfold efr32x_wait_status_loop
    simp only []
    split
    · rfl
    · split
      · rfl
      · split <;> rfl
  | succ n ih =>
    intro w
    unfold efr32x_wait_status_loop
    simp only []
    split
    · exact ⟨[Event.read_u32 EFR32_MSC_STATUS], rfl, fun _ => rfl⟩
    · split
      · exact ⟨[Event.read_u32 EFR32_MSC_STATUS], rfl, fun _ => rfl⟩
      · split
        · exact ⟨[Event.read_u32 EFR32_MSC_STATUS], rfl, fun _ => rfl⟩
        · obtain ⟨evs, h, hq⟩ := ih (alive_sleep (target_read_u32 T w EFR32_MSC_STATUS).2.2 1)
          refine ⟨Event.read_u32 EFR32_MSC_STATUS :: Event.alive_sleep 1 :: evs, ?_, ?_⟩
          · rw [h]
            simp [alive_sleep, target_read_u32]
          · intro r
            simpa [reg_writes] using hq r

/-- C10.  For every bank state, target state and sector range, `efr32x_protect` called
with `set = false` returns failure (`ERROR_FAIL`) and leaves the world and the bank
unchanged: no collaborator call is recorded, and the in-host lock-bit mirror is the one
passed in. -/
theorem protect_unset_refused {τ : Type} (H : Host) (T : Target τ) (bank : flash_bank)
    (w : World τ) (first last : Int) :
    efr32x_protect H T bank w 0 first last = some (ERROR_FAIL, bank, w) ∧
    ERROR_FAIL ≠ ERROR_OK := by
  refine ⟨?_, by decide⟩
  simp only [efr32x_protect, if_true]

/-! ## Page erase and word write: rejection by the controller -/

/-- C13.  In `efr32x_erase_page` and in `efr32x_write_word`, once the address has been
latched (the write of ADDRB and the setting of LADDRIM succeeded), if the status word read
next has the LOCKED bit (0x2) or the INVADDR bit (0x4) set, the operation returns failure
and the world it returns is the one right after that status read: the status read is the
last collaborator call, so no ERASEPAGE bit is written to WRITECMD (erase) and neither a
write to WDATA nor a WRITEONCE command is issued (word write). -/
theorem status_rejection_stops {τ : Type} (T : Target τ) (w : World τ) (addr val : Nat) :
    ((target_write_u32 T w EFR32_MSC_ADDRB addr).1 = ERROR_OK →
      (efr32x_set_reg_bits T (target_write_u32 T w EFR32_MSC_ADDRB addr).2 EFR32_MSC_WRITECMD
        EFR32_MSC_WRITECMD_LADDRIM_MASK 1).1 = ERROR_OK →
      ((target_read_u32 T (efr32x_set_reg_bits T (target_write_u32 T w EFR32_MSC_ADDRB addr).2
          EFR32_MSC_WRITECMD EFR32_MSC_WRITECMD_LADDRIM_MASK 1).2 EFR32_MSC_STATUS).2.1
            &&& EFR32_MSC_STATUS_LOCKED_MASK ≠ 0 ∨
        (target_read_u32 T (efr32x_set_reg_bits T (target_write_u32 T w EFR32_MSC_ADDRB addr).2
          EFR32_MSC_WRITECMD EFR32_MSC_WRITECMD_LADDRIM_MASK 1).2 EFR32_MSC_STATUS).2.1
            &&& EFR32_MSC_STATUS_INVADDR_MASK ≠ 0) →
      (efr32x_erase_page T w addr).1 ≠ ERROR_OK ∧
      (efr32x_erase_page T w addr).2 =
        (target_read_u32 T (efr32x_set_reg_bits T (target_write_u32 T w EFR32_MSC_ADDRB addr).2
          EFR32_MSC_WRITECMD EFR32_MSC_WRITECMD_LADDRIM_MASK 1).2 EFR32_MSC_STATUS).2.2 ∧
      (efr32x_erase_page T w addr).2.trace =
        (efr32x_set_reg_bits T (target_write_u32 T w EFR32_MSC_ADDRB addr).2 EFR32_MSC_WRITECMD
          EFR32_MSC_WRITECMD_LADDRIM_MASK 1).2.trace ++ [Event.read_u32 EFR32_MSC_STATUS]) ∧
    ((target_write_u32 T (keep_alive w) EFR32_MSC_ADDRB addr).1 = ERROR_OK →
      (efr32x_set_reg_bits T (target_write_u32 T (keep_alive w) EFR32_MSC_ADDRB addr).2
        EFR32_MSC_WRITECMD EFR32_MSC_WRITECMD_LADDRIM_MASK 1).1 = ERROR_OK →
      ((target_read_u32 T (efr32x_set_reg_bits T
          (target_write_u32 T (keep_alive w) EFR32_MSC_ADDRB addr).2
          EFR32_MSC_WRITECMD EFR32_MSC_WRITECMD_LADDRIM_MASK 1).2 EFR32_MSC_STATUS).2.1
            &&& EFR32_MSC_STATUS_LOCKED_MASK ≠ 0 ∨
        (target_read_u32 T (efr32x_set_reg_bits T
          (target_write_u32 T (keep_alive w) EFR32_MSC_ADDRB addr).2
          EFR32_MSC_WRITECMD EFR32_MSC_WRITECMD_LADDRIM_MASK 1).2 EFR32_MSC_STATUS).2.1
            &&& EFR32_MSC_STATUS_INVADDR_MASK ≠ 0) →
      (efr32x_write_word T w addr val).1 ≠ ERROR_OK ∧
      (efr32x_write_word T w addr val).2 =
        (target_read_u32 T (efr32x_set_reg_bits T
          (target_write_u32 T (keep_alive w) EFR32_MSC_ADDRB addr).2
          EFR32_MSC_WRITECMD EFR32_MSC_WRITECMD_LADDRIM_MASK 1).2 EFR32_MSC_STATUS).2.2 ∧
      (efr32x_write_word T w addr val).2.trace =
        (efr32x_set_reg_bits T (target_write_u32 T (keep_alive w) EFR32_MSC_ADDRB addr).2
          EFR32_MSC_WRITECMD EFR32_MSC_WRITECMD_LADDRIM_MASK 1).2.trace ++
          [Event.read_u32 EFR32_MSC_STATUS] ∧
      reg_writes EFR32_MSC_WDATA
        (new_events w.trace (efr32x_write_word T w addr val).2.trace) = []) := by
  have hfail : ERROR_FAIL ≠ ERROR_OK := by decide
  constructor
  · intro h1 h2 hst
    have n1 : ¬ ((target_write_u32 T w EFR32_MSC_ADDRB addr).1 ≠ ERROR_OK) := fun h => h h1
    have n2 : ¬ ((efr32x_set_reg_bits T (target_write_u32 T w EFR32_MSC_ADDRB addr).2
        EFR32_MSC_WRITECMD EFR32_MSC_WRITECMD_LADDRIM_MASK 1).1 ≠ ERROR_OK) := fun h => h h2
    generalize hw2 : (efr32x_set_reg_bits T (target_write_u32 T w EFR32_MSC_ADDRB addr).2
        EFR32_MSC_WRITECMD EFR32_MSC_WRITECMD_LADDRIM_MASK 1).2 = w2 at hst
    have hval : efr32x_erase_page T w addr =
        (if (target_read_u32 T w2 EFR32_MSC_STATUS).1 ≠ ERROR_OK
          then (target_read_u32 T w2 EFR32_MSC_STATUS).1 else ERROR_FAIL,
         (target_read_u32 T w2 EFR32_MSC_STATUS).2.2) := by
      simp only [efr32x_erase_page, if_neg n1, if_neg n2, hw2]
      by_cases h3 : (target_read_u32 T w2 EFR32_MSC_STATUS).1 ≠ ERROR_OK
      · rw [if_pos h3, if_pos h3]
      · rw [if_neg h3, if_neg h3]
        by_cases ha : (target_read_u32 T w2 EFR32_MSC_STATUS).2.1
            &&& EFR32_MSC_STATUS_LOCKED_MASK ≠ 0
        · rw [if_pos ha]
        · rw [if_neg ha]
          rcases hst with hl | hi
          · exact absurd hl ha
          · rw [if_pos hi]
    rw [hval]
    refine ⟨?_, rfl, rfl⟩
    by_cases h3 : (target_read_u32 T w2 EFR32_MSC_STATUS).1 ≠ ERROR_OK
    · simp only [if_pos h3]; exact h3
    · simp only [if_neg h3]; exact hfail
  · intro h1 h2 hst
    have n1 : ¬ ((target_write_u32 T (keep_alive w) EFR32_MSC_ADDRB addr).1 ≠ ERROR_OK) :=
      fun h => h h1
    have n2 : ¬ ((efr32x_set_reg_bits T (target_write_u32 T (keep_alive w) EFR32_MSC_ADDRB
        addr).2 EFR32_MSC_WRITECMD EFR32_MSC_WRITECMD_LADDRIM_MASK 1).1 ≠ ERROR_OK) :=
      fun h => h h2
    obtain ⟨e2, t2, q2⟩ := set_reg_bits_quiet T
      (target_write_u32 T (keep_alive w) EFR32_MSC_ADDRB addr).2 EFR32_MSC_WRITECMD
      EFR32_MSC_WRITECMD_LADDRIM_MASK 1
    generalize hw2 : (efr32x_set_reg_bits T (target_write_u32 T (keep_alive w) EFR32_MSC_ADDRB
        addr).2 EFR32_MSC_WRITECMD EFR32_MSC_WRITECMD_LADDRIM_MASK 1).2 = w2 at hst t2
    have hval : efr32x_write_word T w addr val =
        (if (target_read_u32 T w2 EFR32_MSC_STATUS).1 ≠ ERROR_OK
          then (target_read_u32 T w2 EFR32_MSC_STATUS).1 else ERROR_FAIL,
         (target_read_u32 T w2 EFR32_MSC_STATUS).2.2) := by
      simp only [efr32x_write_word, if_neg n1, if_neg n2, hw2]
      by_cases h3 : (target_read_u32 T w2 EFR32_MSC_STATUS).1 ≠ ERROR_OK
      · rw [if_pos h3, if_pos h3]
      · rw [if_neg h3, if_neg h3]
        by_cases ha : (target_read_u32 T w2 EFR32_MSC_STATUS).2.1
            &&& EFR32_MSC_STATUS_LOCKED_MASK ≠ 0
        · rw [if_pos ha]
        · rw [if_neg ha]
          rcases hst with hl | hi
          · exact absurd hl ha
          · rw [if_pos hi]
    rw [hval]
    refine ⟨?_, rfl, rfl, ?_⟩
    · by_cases h3 : (target_read_u32 T w2 EFR32_MSC_STATUS).1 ≠ ERROR_OK
      · simp only [if_pos h3]; exact h3
      · simp only [if_neg h3]; exact hfail
    · have a1 : ¬ (EFR32_MSC_ADDRB = EFR32_MSC_WDATA) := by decide
      have ht : (target_read_u32 T w2 EFR32_MSC_STATUS).2.2.trace =
          w.trace ++ ([Event.keep_alive, Event.write_u32 EFR32_MSC_ADDRB addr] ++ e2 ++
            [Event.read_u32 EFR32_MSC_STATUS]) := by
        rw [read_u32_trace, t2]
        simp [target_write_u32, keep_alive]
      simp only [ht, new_events_append, reg_writes_append, q2 EFR32_MSC_WDATA (by decide)]
      simp [reg_writes, a1]

/-- Witness for C13: a page erase and a word write on a device reporting LOCKED, and on a
device reporting INVADDR; each returns `ERROR_FAIL` right after the status read. -/
theorem status_rejection_stops_witness :
    efr32x_erase_page (simTarget simPageLocked) world0 0x800 =
      (ERROR_FAIL, { world0 with trace :=
        [Event.write_u32 EFR32_MSC_ADDRB 0x800, Event.read_u32 EFR32_MSC_WRITECMD,
         Event.write_u32 EFR32_MSC_WRITECMD 1, Event.read_u32 EFR32_MSC_STATUS] }) ∧
    efr32x_write_word (simTarget simInvalidAddr) world0 0x800 0xAAAAAAAA =
      (ERROR_FAIL, { world0 with trace :=
        [Event.keep_alive, Event.write_u32 EFR32_MSC_ADDRB 0x800,
         Event.read_u32 EFR32_MSC_WRITECMD, Event.write_u32 EFR32_MSC_WRITECMD 1,
         Event.read_u32 EFR32_MSC_STATUS] }) ∧
    (efr32x_erase_page (simTarget simPageLocked) world0 0x800).1 ≠ ERROR_OK ∧
    (efr32x_write_word (simTarget simInvalidAddr) world0 0x800 0xAAAAAAAA).1 ≠ ERROR_OK ∧
    reg_writes EFR32_MSC_WDATA (new_events world0.trace
      (efr32x_write_word (simTarget simInvalidAddr) world0 0x800 0xAAAAAAAA).2.trace) = [] :=
  ⟨rfl, rfl,
    ((status_rejection_stops (simTarget simPageLocked) world0 0x800 0).1 rfl rfl
      (Or.inl (by decide))).1,
    ((status_rejection_stops (simTarget simInvalidAddr) world0 0x800 0xAAAAAAAA).2 rfl rfl
      (Or.inr (by decide))).1,
    ((status_rejection_stops (simTarget simInvalidAddr) world0 0x800 0xAAAAAAAA).2 rfl rfl
      (Or.inr (by decide))).2.2.2⟩

/-! ## Sector erase -/

theorem erase_page_latches {τ : Type} (T : Target τ) (w : World τ) (addr : Nat) :
    ∃ evs : List Event,
      (efr32x_erase_page T w addr).2.trace = w.trace ++ evs ∧
      reg_writes EFR32_MSC_ADDRB evs = [addr] := by
  have a0 : reg_writes EFR32_MSC_ADDRB [Event.write_u32 EFR32_MSC_ADDRB addr] = [addr] := by
    simp [reg_writes]
  unfold efr32x_erase_page
  simp only []
  by_cases h1 : (target_write_u32 T w EFR32_MSC_ADDRB addr).1 ≠ ERROR_OK
  · rw [if_pos h1]
    exact ⟨[Event.write_u32 EFR32_MSC_ADDRB addr], rfl, a0⟩
  rw [if_neg h1]
  have t1 := write_u32_trace T w EFR32_MSC_ADDRB addr
  generalize (target_write_u32 T w EFR32_MSC_ADDRB addr).2 = w1 at t1 ⊢
  obtain ⟨e2, t2, q2⟩ := set_reg_bits_quiet T w1 EFR32_MSC_WRITECMD
    EFR32_MSC_WRITECMD_LADDRIM_MASK 1
  have b2 := q2 EFR32_MSC_ADDRB (by decide)
  by_cases h2 : (efr32x_set_reg_bits T w1 EFR32_MSC_WRITECMD
      EFR32_MSC_WRITECMD_LADDRIM_MASK 1).1 ≠ ERROR_OK
  · rw [if_pos h2]
    refine ⟨[Event.write_u32 EFR32_MSC_ADDRB addr] ++ e2, ?_, ?_⟩
    · rw [t2, t1, List.append_assoc]
    · rw [reg_writes_append, a0, b2]; rfl
  rw [if_neg h2]
  generalize (efr32x_set_reg_bits T w1 EFR32_MSC_WRITECMD
    EFR32_MSC_WRITECMD_LADDRIM_MASK 1).2 = w2 at t2 ⊢
  have t3 := read_u32_trace T w2 EFR32_MSC_STATUS
  have hshort : ∃ evs : List Event,
      (target_read_u32 T w2 EFR32_MSC_STATUS).2.2.trace = w.trace ++ evs ∧
      reg_writes EFR32_MSC_ADDRB evs = [addr] := by
    refine ⟨[Event.write_u32 EFR32_MSC_ADDRB addr] ++ e2 ++ [Event.read_u32 EFR32_MSC_STATUS],
      ?_, ?_⟩
    · rw [t3, t2, t1]; simp only [List.append_assoc]
    · rw [reg_writes_append, reg_writes_append, a0, b2]; rfl
  by_cases h3 : (target_read_u32 T w2 EFR32_MSC_STATUS).1 ≠ ERROR_OK
  · rw [if_pos h3]; exact hshort
  rw [if_neg h3]
  by_cases h3a : (target_read_u32 T w2 EFR32_MSC_STATUS).2.1 &&& EFR32_MSC_STATUS_LOCKED_MASK ≠ 0
  · rw [if_pos h3a]; exact hshort
  rw [if_neg h3a]
  by_cases h3b : (target_read_u32 T w2 EFR32_MSC_STATUS).2.1 &&& EFR32_MSC_STATUS_INVADDR_MASK ≠ 0
  · rw [if_pos h3b]; exact hshort
  rw [if_neg h3b]
  generalize (target_read_u32 T w2 EFR32_MSC_STATUS).2.2 = w3 at t3 ⊢
  obtain ⟨e4, t4, q4⟩ := set_reg_bits_quiet T w3 EFR32_MSC_WRITECMD
    EFR32_MSC_WRITECMD_ERASEPAGE_MASK 1
  have b4 := q4 EFR32_MSC_ADDRB (by decide)
  by_cases h4 : (efr32x_set_reg_bits T w3 EFR32_MSC_WRITECMD
      EFR32_MSC_WRITECMD_ERASEPAGE_MASK 1).1 ≠ ERROR_OK
  · rw [if_pos h4]
    refine ⟨[Event.write_u32 EFR32_MSC_ADDRB addr] ++ e2 ++ [Event.read_u32 EFR32_MSC_STATUS]
      ++ e4, ?_, ?_⟩
    · rw [t4, t3, t2, t1]; simp only [List.append_assoc]
    · rw [reg_writes_append, reg_writes_append, reg_writes_append, a0, b2, b4]; rfl
  rw [if_neg h4]
  generalize (efr32x_set_reg_bits T w3 EFR32_MSC_WRITECMD
    EFR32_MSC_WRITECMD_ERASEPAGE_MASK 1).2 = w4 at t4 ⊢
  obtain ⟨e5, t5, q5⟩ := wait_status_loop_quiet T EFR32_MSC_STATUS_BUSY_MASK 0
    EFR32_FLASH_ERASE_TMO.toNat w4
  change (efr32x_wait_status T w4 EFR32_FLASH_ERASE_TMO
    EFR32_MSC_STATUS_BUSY_MASK 0).2.trace = _ at t5
  refine ⟨[Event.write_u32 EFR32_MSC_ADDRB addr] ++ e2 ++ [Event.read_u32 EFR32_MSC_STATUS]
    ++ e4 ++ e5, ?_, ?_⟩
  · rw [t5, t4, t3, t2, t1]; simp only [List.append_assoc]
  · rw [reg_writes_append, reg_writes_append, reg_writes_append, reg_writes_append, a0, b2, b4,
      q5]
    rfl

theorem erase_pages_all {τ : Type} (T : Target τ) (bank : flash_bank) :
    ∀ (n k : Nat) (ret : Int) (w : World τ), (0 < n → k + n ≤ bank.sectors.length) →
      ∃ (ret1 : Int) (evs : List Event),
        efr32x_erase_pages T bank n (k : Int) ret w =
          some (ret1, erase_each T w ((bank.sectors.drop k).take n)) ∧
        (erase_each T w ((bank.sectors.drop k).take n)).trace = w.trace ++ evs ∧
        reg_writes EFR32_MSC_ADDRB evs =
          ((bank.sectors.drop k).take n).map (fun s => s.offset) := by
  intro n
  induction n with
  | zero =>
    intro k ret w _
    exact ⟨ret, [], rfl, by simp [erase_each], rfl⟩
  | succ n ih =>
    intro k ret w hk0
    have hk := hk0 (Nat.succ_pos n)
    have hlt : k < bank.sectors.length := by omega
    have hsec : sector_at bank (k : Int) = some bank.sectors[k] := by
      simp [sector_at, List.getElem?_eq_getElem hlt]
    have hdrop : (bank.sectors.drop k).take (n + 1) =
        bank.sectors[k] :: (bank.sectors.drop (k + 1)).take n := by
      rw [List.drop_eq_getElem_cons hlt, List.take_succ_cons]
    obtain ⟨e1, t1, a1⟩ := erase_page_latches T w bank.sectors[k].offset
    obtain ⟨ret1, e2, h2, t2, a2⟩ := ih (k + 1) (efr32x_erase_page T w bank.sectors[k].offset).1
      (efr32x_erase_page T w bank.sectors[k].offset).2 (fun _ => by omega)
    refine ⟨ret1, e1 ++ e2, ?_, ?_, ?_⟩
    · rw [hdrop]
      simp only [efr32x_erase_pages, hsec]
      have hc : ((k : Int) + 1) = ((k + 1 : Nat) : Int) := by push_cast; rfl
      rw [hc, h2]
      rfl
    · rw [hdrop]
      show (erase_each T (efr32x_erase_page T w bank.sectors[k].offset).2
        ((bank.sectors.drop (k + 1)).take n)).trace = _
      rw [t2, t1, List.append_assoc]
    · rw [hdrop, reg_writes_append, a1, a2]
      rfl

/-- C12.  On a halted target where write mode was enabled successfully, for every range
`first..last` of existing sectors, `efr32x_erase(first, last)` invokes `efr32x_erase_page`
on every sector `first..last` in increasing order whatever the earlier invocations
returned (the addresses latched in ADDRB are exactly the offsets of these sectors, in
order), and its return value is the result of the final write-mode (WREN) disable: it
returns success whenever that disable succeeds, even if every page erase failed. -/
theorem erase_continues_past_failures {τ : Type} (T : Target τ) (bank : flash_bank)
    (w : World τ) (first last : Int)
    (hhalt : T.halted w.tgt = true)
    (hwren : (efr32x_set_wren T (efr32x_msc_lock T w 0).2 1).1 = ERROR_OK)
    (hfirst : 0 ≤ first) (hlast : last < bank.sectors.length) :
    efr32x_erase T bank w first last =
      some ((efr32x_set_wren T
          (erase_each T (efr32x_write_enabled T w) (sector_range bank first last)) 0).1,
        (efr32x_msc_lock T (efr32x_set_wren T
          (erase_each T (efr32x_write_enabled T w) (sector_range bank first last)) 0).2 1).2) ∧
    (∃ evs : List Event,
      (erase_each T (efr32x_write_enabled T w) (sector_range bank first last)).trace =
        (efr32x_write_enabled T w).trace ++ evs ∧
      reg_writes EFR32_MSC_ADDRB evs =
        (sector_range bank first last).map (fun s => s.offset)) ∧
    ((efr32x_set_wren T
        (erase_each T (efr32x_write_enabled T w) (sector_range bank first last)) 0).1 = ERROR_OK →
      ∃ w1 : World τ, efr32x_erase T bank w first last = some (ERROR_OK, w1)) := by
  have hw : ¬ ((efr32x_set_wren T (efr32x_msc_lock T w 0).2 1).1 ≠ ERROR_OK) :=
    fun h => h hwren
  have hk : 0 < (last - first + 1).toNat →
      first.toNat + (last - first + 1).toNat ≤ bank.sectors.length := by omega
  have hcast : ((first.toNat : Nat) : Int) = first := Int.toNat_of_nonneg hfirst
  obtain ⟨ret1, evs, h1, t1, a1⟩ := erase_pages_all T bank (last - first + 1).toNat first.toNat
    (efr32x_set_wren T (efr32x_msc_lock T w 0).2 1).1 (efr32x_write_enabled T w) hk
  rw [hcast] at h1
  have hmain : efr32x_erase T bank w first last =
      some ((efr32x_set_wren T
          (erase_each T (efr32x_write_enabled T w) (sector_range bank first last)) 0).1,
        (efr32x_msc_lock T (efr32x_set_wren T
          (erase_each T (efr32x_write_enabled T w) (sector_range bank first last)) 0).2 1).2) := by
    unfold efr32x_write_enabled at h1
    simp only [efr32x_erase, hhalt, Bool.true_eq_false, if_false, if_neg hw, h1]
    rfl
  refine ⟨hmain, ⟨evs, t1, a1⟩, ?_⟩
  intro hok
  rw [hmain, hok]
  exact ⟨_, rfl⟩

/-- Witness for C12: sectors 2..4 of a 64-page bank on a device whose pages are all
locked: each of the three page erases is attempted and fails, and the erase returns
success. -/
theorem erase_continues_past_failures_witness :
    (simTarget simPageLocked).halted world0.tgt = true ∧
    (efr32x_set_wren (simTarget simPageLocked)
      (efr32x_msc_lock (simTarget simPageLocked) world0 0).2 1).1 = ERROR_OK ∧
    (0 : Int) ≤ 2 ∧ (4 : Int) < bank64.sectors.length ∧
    (efr32x_erase_page (simTarget simPageLocked) world0 0x1000).1 = ERROR_FAIL ∧
    reg_writes EFR32_MSC_ADDRB
      (erase_each (simTarget simPageLocked) (efr32x_write_enabled (simTarget simPageLocked) world0)
        (sector_range bank64 2 4)).trace = [0x1000, 0x1800, 0x2000] ∧
    ∃ w1 : World Unit, efr32x_erase (simTarget simPageLocked) bank64 world0 2 4 =
      some (ERROR_OK, w1) :=
  ⟨rfl, by decide, by decide, by decide, by decide, by decide,
    (erase_continues_past_failures (simTarget simPageLocked) bank64 world0 2 4 rfl (by decide)
      (by decide) (by decide)).2.2 (by decide)⟩

/-! ## Lock-bit page flush: controller state at the page erase -/

/-- C14 (failing input).  `efr32x_protect` and the debuglock command reach
`efr32x_erase_page` through `efr32x_write_lock_data` as their very first target access:
the ERASEPAGE command is written to WRITECMD although no unlock key has been written to
LOCK and WREN has not been set in WRITECTRL; the unlock and the WREN set only follow, inside
`efr32x_write`.  `efr32x_erase` on the same device does unlock and set WREN before its
first page erase. -/
theorem lock_flush_erases_before_unlock :
    (efr32x_protect simHost (simTarget simOk) bank64 world0 1 5 5).map
        (fun r => (r.1, r.2.2.trace.take 8)) =
      some (ERROR_OK,
        [Event.write_u32 EFR32_MSC_ADDRB EFR32_MSC_LOCK_BITS,
         Event.read_u32 EFR32_MSC_WRITECMD,
         Event.write_u32 EFR32_MSC_WRITECMD EFR32_MSC_WRITECMD_LADDRIM_MASK,
         Event.read_u32 EFR32_MSC_STATUS,
         Event.read_u32 EFR32_MSC_WRITECMD,
         Event.write_u32 EFR32_MSC_WRITECMD EFR32_MSC_WRITECMD_ERASEPAGE_MASK,
         Event.read_u32 EFR32_MSC_STATUS,
         Event.write_u32 EFR32_MSC_LOCK EFR32_MSC_LOCK_LOCKKEY]) ∧
    (efr32x_handle_debuglock_command simHost (simTarget simOk) 1 ERROR_OK bank64
        world0).2.2.trace.take 8 =
      [Event.write_u32 EFR32_MSC_ADDRB EFR32_MSC_LOCK_BITS,
       Event.read_u32 EFR32_MSC_WRITECMD,
       Event.write_u32 EFR32_MSC_WRITECMD EFR32_MSC_WRITECMD_LADDRIM_MASK,
       Event.read_u32 EFR32_MSC_STATUS,
       Event.read_u32 EFR32_MSC_WRITECMD,
       Event.write_u32 EFR32_MSC_WRITECMD EFR32_MSC_WRITECMD_ERASEPAGE_MASK,
       Event.read_u32 EFR32_MSC_STATUS,
       Event.write_u32 EFR32_MSC_LOCK EFR32_MSC_LOCK_LOCKKEY] ∧
    (efr32x_erase (simTarget simOk) bank64 world0 5 5).map (fun r => r.2.trace.take 4) =
      some [Event.write_u32 EFR32_MSC_LOCK EFR32_MSC_LOCK_LOCKKEY,
        Event.read_u32 EFR32_MSC_WRITECTRL,
        Event.write_u32 EFR32_MSC_WRITECTRL EFR32_MSC_WRITECTRL_WREN_MASK,
        Event.write_u32 EFR32_MSC_ADDRB 0x2800] := by
  refine ⟨by decide, by decide, by decide⟩

/-! ## Probe: bounds of the lock-bit mirror -/

/-- C15 (failing input).  A device reporting 8194 KiB of flash with 2048-byte pages passes
`efr32x_read_info`, the sector count is 4097 and positive, and `efr32x_probe` reaches the
lock-data read; `efr32x_read_lock_data` then reads 129 words: the first 128 are stored in
range and the 129th store is to `lb_page[128]`, outside the 128-word array.  The accessors
index the same word for sector 4096, which is below the sector count. -/
theorem probe_overruns_lock_page :
    (efr32x_read_info simHost (simTarget simFlash8194) world0).1 = ERROR_OK ∧
    (efr32x_read_info simHost (simTarget simFlash8194) world0).2.1.flash_sz_kib = 8194 ∧
    (efr32x_read_info simHost (simTarget simFlash8194) world0).2.1.page_size = 2048 ∧
    ((8194 : Int) * 1024) / 2048 = 4097 ∧
    (efr32x_probe simHost (simTarget simFlash8194) bank64 world0).isNone = true ∧
    ((bank4097.num_sectors + 31) / 32).toNat = 129 ∧
    (efr32x_read_lock_words (simTarget simFlash8194) 128 0 bank4097 world0).isSome = true ∧
    (efr32x_read_lock_words (simTarget simFlash8194) 129 0 bank4097 world0).isNone = true ∧
    (efr32x_read_lock_data (simTarget simFlash8194) bank4097 world0).isNone = true ∧
    (efr32x_read_lock_word (simTarget simFlash8194) bank4097 world0 128).isNone = true ∧
    ((4096 : Nat) : Int) < bank4097.num_sectors ∧
    (efr32x_get_page_lock bank4097 4096).isNone = true ∧
    (efr32x_set_page_lock bank4097 4096 1).isNone = true := by
  repeat' apply And.intro
  all_goals decide

/-! ## Protection of a sector range and its check -/

theorem get_page_lock_lb_page (bank bank1 : flash_bank) (q : Nat)
    (h : bank1.lb_page = bank.lb_page) :
    efr32x_get_page_lock bank1 q = efr32x_get_page_lock bank q := by
  simp only [efr32x_get_page_lock, h]

end Efr32
